import Mathlib

/-!
# Ruby 2D native extension: `ext/ruby2d/ruby2d.c`

A shallow embedding of the C extension that binds the Simple 2D library to
Ruby, followed by theorems about its callbacks and about `Window#show`.

The C file keeps its state in two static variables (`self`, `window`) and
acts on what lives outside it: the instance variables of Ruby objects and
the structs allocated by Simple 2D.  These are fields of `World`, together
with a log of what the C code did to the outside, in order: the calls of
Simple 2D and of Ruby methods, the assignments of instance variables and the
assignments to fields of the window.  A C function is a function on `World`.

`NUM2INT` raises a Ruby exception when its argument does not convert to a C
`int`.  The exception unwinds out of the C function and out of everything
that called it, `S2D_Show` and `ruby2d_show` included, so a function that
can reach `NUM2INT` yields an `Outcome`: the world it left behind and
whether it raised.

What `ruby2d.c` uses without defining it (the other conversion macros of
`ruby.h`, the constants and constructors of `simple2d.h`, the bodies of the
Ruby methods it calls back) is collected in `Env`.  The conversions to a
`double`, to a string pointer and to a struct pointer are taken to return to
their caller, and so are the Ruby methods; a Ruby method called back acts on
the Ruby heap; one that calls `show` or `close` again from inside a callback
is not covered.
-/

namespace Ruby2D

/-! ## Ruby values -/

/-- Ruby `VALUE`: the special constants, integers, strings, references to
ordinary heap objects (anything carrying instance variables or elements) and
`Data_Wrap_Struct` wrappers around a native pointer. -/
inductive VALUE where
  | Qnil
  | Qtrue
  | Qfalse
  | fixnum (n : Int)
  | str (s : String)
  | obj (id : Nat)
  | data (p : Nat)
  deriving DecidableEq, Repr

/-- Lines 5-8: the `@type_id` values for rendering. -/
def TRIANGLE : Int := 1
/-- Line 6. -/
def QUAD : Int := 2
/-- Line 7. -/
def IMAGE : Int := 3
/-- Line 8. -/
def TEXT : Int := 4

/-- The largest C `int` (`limits.h`, 32 bits). -/
def INT_MAX : Int := 2147483647

/-- The smallest C `int` (`limits.h`, 32 bits). -/
def INT_MIN : Int := -2147483648

/-! ## Simple 2D structs -/

/-- `S2D_Image`: the file the texture was loaded from and the position. -/
structure S2D_Image (D : Type) where
  path : String
  x : D
  y : D
  deriving DecidableEq, Repr

/-- `S2D_Text`: font file, message, point size and the position. -/
structure S2D_Text (D : Type) where
  font : String
  msg : String
  size : Int
  x : D
  y : D
  deriving DecidableEq, Repr

/-- Functions of this file with the signature `void (*)(const char *)`. -/
inductive KeyFn where
  | on_key
  | on_key_down
  deriving DecidableEq, Repr

/-- Functions of this file with the signature of a controller callback. -/
inductive ControllerFn where
  | on_controller
  deriving DecidableEq, Repr

/-- Functions of this file with the signature `void (*)()` that are handed
to `S2D_CreateWindow`. -/
inductive FrameFn where
  | update
  | render
  deriving DecidableEq, Repr

/-- Functions of this file that are handed to `atexit`. -/
inductive ExitFn where
  | free_window
  deriving DecidableEq, Repr

/-- `S2D_Window`, the fields this file reads or writes.  A hook that is
`none` is a null function pointer. -/
structure S2D_Window (D : Type) where
  title : String
  width : Int
  height : Int
  flags : Int
  update : Option FrameFn
  render : Option FrameFn
  on_key : Option KeyFn
  on_key_down : Option KeyFn
  on_controller : Option ControllerFn
  viewport_width : Int
  viewport_height : Int
  mouse_x : Int
  mouse_y : Int
  fps : Int
  background_r : D
  background_g : D
  background_b : D
  background_a : D
  deriving DecidableEq, Repr

/-! ## The world -/

/-- Ruby object memory: instance variables and, for arrays, the elements. -/
structure Heap where
  ivars : VALUE → String → VALUE
  elems : VALUE → List VALUE

/-- An assignment to a field of the window through the static pointer
`window`, such as `window->background.r = v`. -/
inductive WindowStore (D : Type) where
  | background_r (v : D)
  | background_g (v : D)
  | background_b (v : D)
  | background_a (v : D)
  | viewport_width (n : Int)
  | viewport_height (n : Int)
  | on_key (f : KeyFn)
  | on_key_down (f : KeyFn)
  | on_controller (f : ControllerFn)
  deriving DecidableEq, Repr

/-- What the C file does to the outside, in the order it does it: calls of
Simple 2D, calls of Ruby methods, assignments of instance variables and
assignments to fields of the window. -/
inductive Event (D : Type) where
  | S2D_DrawTriangle (args : List D)
  | S2D_DrawQuad (args : List D)
  | S2D_DrawImage (img : Nat) (pointee : S2D_Image D)
  | S2D_DrawText (txt : Nat) (pointee : S2D_Text D)
  | S2D_CreateImage (path : String) (img : Nat)
  | S2D_CreateText (font : String) (msg : String) (size : Int) (txt : Nat)
  | S2D_CreateWindow (title : String) (width height : Int)
      (update_fn render_fn : FrameFn) (flags : Int)
  | S2D_Show
  | rb_funcall (recv : VALUE) (mid : String) (args : List VALUE)
  | rb_iv_set (obj : VALUE) (name : String) (val : VALUE)
  | window_store (s : WindowStore D)
  deriving DecidableEq, Repr

/-- The static variables of the file (`self`, `window` as the struct it
points to), the Ruby heap, native memory, and the log of what was done.
Native pointers are numbers handed out by a bump allocator (`next_ptr`);
`images p` and `texts p` are what an `S2D_Image *` or `S2D_Text *` equal to
`p` points to. -/
structure World (D : Type) where
  self : VALUE
  window : S2D_Window D
  heap : Heap
  images : Nat → S2D_Image D
  texts : Nat → S2D_Text D
  next_ptr : Nat
  registered_atexit : List ExitFn
  log : List (Event D)

/-- How a C function of this file ends: it returns or a Ruby exception
leaves it; either way the world is what the function has made of it. -/
structure Outcome (D : Type) where
  world : World D
  raised : Bool

/-- Everything `ruby2d.c` uses and does not define.  `NUM2INT_other` is the
integer Ruby converts a value to that is not an Integer (a Float is
truncated, other objects are asked for `to_int`), `none` when there is no
such integer and Ruby raises `TypeError`; `RSTRING_PTR_other` and
`Data_Get_Struct_other` give the result of the macro on a value that is not
a String or a wrapper respectively;
`NUM2DBL` is the conversion to a C `double`, `double_to_int` the implicit C
conversion at the call of `init_text`; `zero` is the position Simple 2D
gives a new image or text; `fresh_window` holds the fields of a new window
that `S2D_CreateWindow` does not take from its arguments; `method` is the
body of the Ruby methods called back. -/
structure Env (D : Type) where
  NUM2INT_other : VALUE → Option Int
  NUM2DBL : VALUE → D
  RSTRING_PTR_other : VALUE → String
  Data_Get_Struct_other : VALUE → Nat
  double_to_int : D → Int
  zero : D
  S2D_RESIZABLE : Int
  S2D_BORDERLESS : Int
  S2D_FULLSCREEN : Int
  S2D_HIGHDPI : Int
  fresh_window : S2D_Window D
  method : VALUE → String → List VALUE → Heap → VALUE × Heap

variable {D : Type}

/-! ## The Ruby C API -/

/-- `rb_iv_get(obj, name)`; an unset variable reads as `nil`. -/
def rb_iv_get (w : World D) (obj : VALUE) (name : String) : VALUE :=
  w.heap.ivars obj name

/-- The world after the instance variable `name` of `obj` was assigned `val`,
by whatever means. -/
def with_ivar (w : World D) (obj : VALUE) (name : String) (val : VALUE) : World D :=
  { w with heap := { w.heap with
      ivars := fun o n => if o = obj ∧ n = name then val else w.heap.ivars o n } }

/-- `rb_iv_set(obj, name, val)`: the assignment, logged. -/
def rb_iv_set (w : World D) (obj : VALUE) (name : String) (val : VALUE) : World D :=
  { with_ivar w obj name val with log := w.log ++ [Event.rb_iv_set obj name val] }

/-- `rb_ary_entry(ary, i)` for `i ≥ 0`; `nil` past the end. -/
def rb_ary_entry (w : World D) (ary : VALUE) (i : Nat) : VALUE :=
  ((w.heap.elems ary)[i]?).getD VALUE.Qnil

/-- `INT2NUM(n)`. -/
def INT2NUM (n : Int) : VALUE := VALUE.fixnum n

/-- `rb_str_new2(s)`. -/
def rb_str_new2 (s : String) : VALUE := VALUE.str s

/-- The integer `NUM2INT` has to fit into an `int`: the value of an Integer,
or what Ruby converts another value to. -/
def to_integer (env : Env D) : VALUE → Option Int
  | VALUE.fixnum n => some n
  | v => env.NUM2INT_other v

/-- `NUM2INT(v)`: the C `int` for `v`; `none` when Ruby raises instead,
`TypeError` for a value without an integer, `RangeError` for an integer
outside `INT_MIN .. INT_MAX`. -/
def NUM2INT (env : Env D) (v : VALUE) : Option Int :=
  match to_integer env v with
  | some n => if INT_MIN ≤ n ∧ n ≤ INT_MAX then some n else none
  | none => none

/-- `RSTRING_PTR(v)`. -/
def RSTRING_PTR (env : Env D) : VALUE → String
  | VALUE.str s => s
  | v => env.RSTRING_PTR_other v

/-- `Data_Wrap_Struct(c_data_klass, NULL, free, p)`. -/
def Data_Wrap_Struct (p : Nat) : VALUE := VALUE.data p

/-- `Data_Get_Struct(v, type, p)`: the wrapped pointer. -/
def Data_Get_Struct (env : Env D) : VALUE → Nat
  | VALUE.data p => p
  | v => env.Data_Get_Struct_other v

/-- `rb_funcall(recv, rb_intern(mid), argc, ...)`.  The call is logged.
`count` is the core method `Array#count` without arguments: the number of
elements, no effect.  Every other method is Ruby code outside this file,
`env.method`, which may rewrite the Ruby heap. -/
def rb_funcall (env : Env D) (recv : VALUE) (mid : String) (args : List VALUE)
    (w : World D) : VALUE × World D :=
  let w1 := { w with log := w.log ++ [Event.rb_funcall recv mid args] }
  if mid = "count" then
    (INT2NUM (w1.heap.elems recv).length, w1)
  else
    let r := env.method recv mid args w1.heap
    (r.1, { w1 with heap := r.2 })

/-! ## Simple 2D -/

/-- `S2D_CreateImage(path)`: a new struct at a fresh address. -/
def S2D_CreateImage (env : Env D) (path : String) (w : World D) : Nat × World D :=
  (w.next_ptr,
   { w with
      images := Function.update w.images w.next_ptr
        { path := path, x := env.zero, y := env.zero }
      next_ptr := w.next_ptr + 1
      log := w.log ++ [Event.S2D_CreateImage path w.next_ptr] })

/-- `S2D_CreateText(font, msg, size)`: a new struct at a fresh address. -/
def S2D_CreateText (env : Env D) (font msg : String) (size : Int) (w : World D) :
    Nat × World D :=
  (w.next_ptr,
   { w with
      texts := Function.update w.texts w.next_ptr
        { font := font, msg := msg, size := size, x := env.zero, y := env.zero }
      next_ptr := w.next_ptr + 1
      log := w.log ++ [Event.S2D_CreateText font msg size w.next_ptr] })

/-- `S2D_DrawImage(img)`: logged with what `img` points to at the call. -/
def S2D_DrawImage (img : Nat) (w : World D) : World D :=
  { w with log := w.log ++ [Event.S2D_DrawImage img (w.images img)] }

/-- `S2D_DrawText(txt)`: logged with what `txt` points to at the call. -/
def S2D_DrawText (txt : Nat) (w : World D) : World D :=
  { w with log := w.log ++ [Event.S2D_DrawText txt (w.texts txt)] }

/-- `S2D_DrawTriangle(x1, y1, r1, g1, b1, a1, ...)`, 18 arguments. -/
def S2D_DrawTriangle (args : List D) (w : World D) : World D :=
  { w with log := w.log ++ [Event.S2D_DrawTriangle args] }

/-- `S2D_DrawQuad(x1, y1, r1, g1, b1, a1, ...)`, 24 arguments. -/
def S2D_DrawQuad (args : List D) (w : World D) : World D :=
  { w with log := w.log ++ [Event.S2D_DrawQuad args] }

/-- The assignment to a field of an `S2D_Window`. -/
def WindowStore.apply : WindowStore D → S2D_Window D → S2D_Window D
  | WindowStore.background_r v, win => { win with background_r := v }
  | WindowStore.background_g v, win => { win with background_g := v }
  | WindowStore.background_b v, win => { win with background_b := v }
  | WindowStore.background_a v, win => { win with background_a := v }
  | WindowStore.viewport_width n, win => { win with viewport_width := n }
  | WindowStore.viewport_height n, win => { win with viewport_height := n }
  | WindowStore.on_key f, win => { win with on_key := some f }
  | WindowStore.on_key_down f, win => { win with on_key_down := some f }
  | WindowStore.on_controller f, win => { win with on_controller := some f }

/-- An assignment `window->field = value`, logged. -/
def store_window (s : WindowStore D) (w : World D) : World D :=
  { w with window := s.apply w.window, log := w.log ++ [Event.window_store s] }

/-- The function returns. -/
def Outcome.returned (w : World D) : Outcome D :=
  { world := w, raised := false }

/-- A Ruby exception leaves the function. -/
def Outcome.raise (w : World D) : Outcome D :=
  { world := w, raised := true }

/-- Sequencing: what follows a call runs only if the call returned. -/
def Outcome.bind (o : Outcome D) (f : World D → Outcome D) : Outcome D :=
  if o.raised then o else f o.world

/-- The assignment `img->x = v` through an `S2D_Image *`. -/
def store_img_x (img : Nat) (v : D) (w : World D) : World D :=
  { w with images := Function.update w.images img { (w.images img) with x := v } }

/-- The assignment `img->y = v` through an `S2D_Image *`. -/
def store_img_y (img : Nat) (v : D) (w : World D) : World D :=
  { w with images := Function.update w.images img { (w.images img) with y := v } }

/-- The assignment `txt->x = v` through an `S2D_Text *`. -/
def store_txt_x (txt : Nat) (v : D) (w : World D) : World D :=
  { w with texts := Function.update w.texts txt { (w.texts txt) with x := v } }

/-- The assignment `txt->y = v` through an `S2D_Text *`. -/
def store_txt_y (txt : Nat) (v : D) (w : World D) : World D :=
  { w with texts := Function.update w.texts txt { (w.texts txt) with y := v } }

/-- `S2D_CreateWindow(title, width, height, update, render, flags)`: the
new window takes these six fields from the arguments. -/
def S2D_CreateWindow (env : Env D) (title : String) (width height : Int)
    (update_fn render_fn : FrameFn) (flags : Int) (w : World D) : World D :=
  { w with
      window := { env.fresh_window with
        title := title, width := width, height := height, flags := flags,
        update := some update_fn, render := some render_fn }
      log := w.log ++ [Event.S2D_CreateWindow title width height update_fn render_fn flags] }

/-- What Simple 2D does to a window while `S2D_Show` runs: it reports a key,
a key press or a controller input to the hook stored in the window, it
refreshes the mouse position and the frame rate, and it calls the update and
the render function of the window. -/
inductive NativeEvent where
  | key (k : String)
  | key_down (k : String)
  | controller (which : Int) (is_axis : Bool) (axis val : Int) (is_btn : Bool) (btn : Int)
  | input (mouse_x mouse_y fps : Int)
  | update
  | render
  deriving DecidableEq, Repr

/-! ## `ruby2d.c` -/

/-- Lines 53-57: `init_image`.  The `image_data` struct holds one pointer and
is identified with it. -/
def init_image (env : Env D) (path : String) (w : World D) : VALUE × World D :=
  let r := S2D_CreateImage env path w
  (Data_Wrap_Struct r.1, r.2)

/-- Lines 72-76: `init_text`. -/
def init_text (env : Env D) (font msg : String) (size : Int) (w : World D) :
    VALUE × World D :=
  let r := S2D_CreateText env font msg size w
  (Data_Wrap_Struct r.1, r.2)

/-- Lines 82-84: `on_key`. -/
def on_key (env : Env D) (key : String) (w : World D) : World D :=
  (rb_funcall env w.self "key_callback" [rb_str_new2 key] w).2

/-- Lines 90-92: `on_key_down`. -/
def on_key_down (env : Env D) (key : String) (w : World D) : World D :=
  (rb_funcall env w.self "key_down_callback" [rb_str_new2 key] w).2

/-- Lines 98-103: `on_controller`. -/
def on_controller (env : Env D) (which : Int) (is_axis : Bool) (axis val : Int)
    (is_btn : Bool) (btn : Int) (w : World D) : World D :=
  let _ := which
  (rb_funcall env w.self "controller_callback"
    [if is_axis then VALUE.Qtrue else VALUE.Qfalse, INT2NUM axis, INT2NUM val,
     if is_btn then VALUE.Qtrue else VALUE.Qfalse, INT2NUM btn] w).2

/-- Lines 109-120: `update`. -/
def update (env : Env D) (w : World D) : World D :=
  let w := rb_iv_set w w.self "@mouse_x" (INT2NUM w.window.mouse_x)
  let w := rb_iv_set w w.self "@mouse_y" (INT2NUM w.window.mouse_y)
  let w := rb_iv_set w w.self "@fps" (INT2NUM w.window.fps)
  (rb_funcall env w.self "update_callback" [] w).2

/-- Lines 146-249: the `switch` statement in the loop of `render`, for the
element `el` with the type `type_id`. -/
def render_switch (env : Env D) (el : VALUE) (type_id : Int) (w : World D) : World D :=
  if type_id = TRIANGLE then
    let c1 := rb_iv_get w el "@c1"
    let c2 := rb_iv_get w el "@c2"
    let c3 := rb_iv_get w el "@c3"
    S2D_DrawTriangle [
      env.NUM2DBL (rb_iv_get w el "@x1"),
      env.NUM2DBL (rb_iv_get w el "@y1"),
      env.NUM2DBL (rb_iv_get w c1 "@r"),
      env.NUM2DBL (rb_iv_get w c1 "@g"),
      env.NUM2DBL (rb_iv_get w c1 "@b"),
      env.NUM2DBL (rb_iv_get w c1 "@a"),
      env.NUM2DBL (rb_iv_get w el "@x2"),
      env.NUM2DBL (rb_iv_get w el "@y2"),
      env.NUM2DBL (rb_iv_get w c2 "@r"),
      env.NUM2DBL (rb_iv_get w c2 "@g"),
      env.NUM2DBL (rb_iv_get w c2 "@b"),
      env.NUM2DBL (rb_iv_get w c2 "@a"),
      env.NUM2DBL (rb_iv_get w el "@x3"),
      env.NUM2DBL (rb_iv_get w el "@y3"),
      env.NUM2DBL (rb_iv_get w c3 "@r"),
      env.NUM2DBL (rb_iv_get w c3 "@g"),
      env.NUM2DBL (rb_iv_get w c3 "@b"),
      env.NUM2DBL (rb_iv_get w c3 "@a")] w
  else if type_id = QUAD then
    let c1 := rb_iv_get w el "@c1"
    let c2 := rb_iv_get w el "@c2"
    let c3 := rb_iv_get w el "@c3"
    let c4 := rb_iv_get w el "@c4"
    S2D_DrawQuad [
      env.NUM2DBL (rb_iv_get w el "@x1"),
      env.NUM2DBL (rb_iv_get w el "@y1"),
      env.NUM2DBL (rb_iv_get w c1 "@r"),
      env.NUM2DBL (rb_iv_get w c1 "@g"),
      env.NUM2DBL (rb_iv_get w c1 "@b"),
      env.NUM2DBL (rb_iv_get w c1 "@a"),
      env.NUM2DBL (rb_iv_get w el "@x2"),
      env.NUM2DBL (rb_iv_get w el "@y2"),
      env.NUM2DBL (rb_iv_get w c2 "@r"),
      env.NUM2DBL (rb_iv_get w c2 "@g"),
      env.NUM2DBL (rb_iv_get w c2 "@b"),
      env.NUM2DBL (rb_iv_get w c2 "@a"),
      env.NUM2DBL (rb_iv_get w el "@x3"),
      env.NUM2DBL (rb_iv_get w el "@y3"),
      env.NUM2DBL (rb_iv_get w c3 "@r"),
      env.NUM2DBL (rb_iv_get w c3 "@g"),
      env.NUM2DBL (rb_iv_get w c3 "@b"),
      env.NUM2DBL (rb_iv_get w c3 "@a"),
      env.NUM2DBL (rb_iv_get w el "@x4"),
      env.NUM2DBL (rb_iv_get w el "@y4"),
      env.NUM2DBL (rb_iv_get w c4 "@r"),
      env.NUM2DBL (rb_iv_get w c4 "@g"),
      env.NUM2DBL (rb_iv_get w c4 "@b"),
      env.NUM2DBL (rb_iv_get w c4 "@a")] w
  else if type_id = IMAGE then
    let w :=
      if rb_iv_get w el "@data" = VALUE.Qnil then
        let r := init_image env (RSTRING_PTR env (rb_iv_get w el "@path")) w
        rb_iv_set r.2 el "@data" r.1
      else w
    let data := Data_Get_Struct env (rb_iv_get w el "@data")
    let w := store_img_x data (env.NUM2DBL (rb_iv_get w el "@x")) w
    let w := store_img_y data (env.NUM2DBL (rb_iv_get w el "@y")) w
    S2D_DrawImage data w
  else if type_id = TEXT then
    let w :=
      if rb_iv_get w el "@data" = VALUE.Qnil then
        let r := init_text env
          (RSTRING_PTR env (rb_iv_get w el "@font"))
          (RSTRING_PTR env (rb_iv_get w el "@text"))
          (env.double_to_int (env.NUM2DBL (rb_iv_get w el "@size"))) w
        rb_iv_set r.2 el "@data" r.1
      else w
    let data := Data_Get_Struct env (rb_iv_get w el "@data")
    let w := store_txt_x data (env.NUM2DBL (rb_iv_get w el "@x")) w
    let w := store_txt_y data (env.NUM2DBL (rb_iv_get w el "@y")) w
    S2D_DrawText data w
  else w

/-- Lines 142-249: the body of the loop in `render`, for the element `el`.
Reading `@type_id` raises when it does not convert to an `int`. -/
def render_object (env : Env D) (el : VALUE) (w : World D) : Outcome D :=
  match NUM2INT env (rb_iv_get w el "@type_id") with
  | none => Outcome.raise w
  | some type_id => Outcome.returned (render_switch env el type_id w)

/-- Lines 126-251: `render`.  Converting the result of `count` raises when
it is not an `int`; the counted loop runs over `0 .. num_objects-1` (not at
all when `num_objects ≤ 0`) and ends at the first iteration that raises. -/
def render (env : Env D) (w : World D) : Outcome D :=
  let bc := rb_iv_get w w.self "@background"
  let w := store_window (WindowStore.background_r (env.NUM2DBL (rb_iv_get w bc "@r"))) w
  let w := store_window (WindowStore.background_g (env.NUM2DBL (rb_iv_get w bc "@g"))) w
  let w := store_window (WindowStore.background_b (env.NUM2DBL (rb_iv_get w bc "@b"))) w
  let w := store_window (WindowStore.background_a (env.NUM2DBL (rb_iv_get w bc "@a"))) w
  let objects := rb_iv_get w w.self "@objects"
  let r := rb_funcall env objects "count" [] w
  match NUM2INT env r.1 with
  | none => Outcome.raise r.2
  | some num_objects =>
    (List.range num_objects.toNat).foldl
      (fun o i => o.bind (fun v => render_object env (rb_ary_entry v objects i) v))
      (Outcome.returned r.2)

/-- A call through a `void (*)(const char *)` pointer into this file. -/
def KeyFn.call (env : Env D) : KeyFn → String → World D → World D
  | KeyFn.on_key => Ruby2D.on_key env
  | KeyFn.on_key_down => Ruby2D.on_key_down env

/-- A call through a controller callback pointer into this file. -/
def ControllerFn.call (env : Env D) :
    ControllerFn → Int → Bool → Int → Int → Bool → Int → World D → World D
  | ControllerFn.on_controller => Ruby2D.on_controller env

/-- A call through a `void (*)()` pointer into this file. -/
def FrameFn.call (env : Env D) : FrameFn → World D → Outcome D
  | FrameFn.update => fun w => Outcome.returned (Ruby2D.update env w)
  | FrameFn.render => Ruby2D.render env

/-- One step of the Simple 2D loop; a null hook is skipped. -/
def S2D_dispatch (env : Env D) (ev : NativeEvent) (w : World D) : Outcome D :=
  match ev with
  | NativeEvent.key k =>
    match w.window.on_key with
    | some f => Outcome.returned (f.call env k w)
    | none => Outcome.returned w
  | NativeEvent.key_down k =>
    match w.window.on_key_down with
    | some f => Outcome.returned (f.call env k w)
    | none => Outcome.returned w
  | NativeEvent.controller which is_axis axis val is_btn btn =>
    match w.window.on_controller with
    | some f => Outcome.returned (f.call env which is_axis axis val is_btn btn w)
    | none => Outcome.returned w
  | NativeEvent.input mouse_x mouse_y fps =>
    Outcome.returned
      { w with window := { w.window with mouse_x := mouse_x, mouse_y := mouse_y, fps := fps } }
  | NativeEvent.update =>
    match w.window.update with
    | some f => f.call env w
    | none => Outcome.returned w
  | NativeEvent.render =>
    match w.window.render with
    | some f => f.call env w
    | none => Outcome.returned w

/-- `S2D_Show(window)`: the loop runs until the window closes; `events` is
what happens in the meantime.  An exception raised in a callback ends the
loop. -/
def S2D_Show (env : Env D) (events : List NativeEvent) (w : World D) : Outcome D :=
  events.foldl (fun o ev => o.bind (S2D_dispatch env ev))
    (Outcome.returned { w with log := w.log ++ [Event.S2D_Show] })

/-- Lines 257-312: `ruby2d_show`; it returns `Qnil`.  Each `NUM2INT` that
raises ends the function on the spot. -/
def ruby2d_show (env : Env D) (s : VALUE) (events : List NativeEvent) (w : World D) :
    Outcome D :=
  let w := { w with self := s }
  let title := RSTRING_PTR env (rb_iv_get w w.self "@title")
  match NUM2INT env (rb_iv_get w w.self "@width") with
  | none => Outcome.raise w
  | some width =>
  match NUM2INT env (rb_iv_get w w.self "@height") with
  | none => Outcome.raise w
  | some height =>
  let flags : Int := 0
  let flags := if rb_iv_get w w.self "@resizable" = VALUE.Qtrue
    then Int.lor flags env.S2D_RESIZABLE else flags
  let flags := if rb_iv_get w w.self "@borderless" = VALUE.Qtrue
    then Int.lor flags env.S2D_BORDERLESS else flags
  let flags := if rb_iv_get w w.self "@fullscreen" = VALUE.Qtrue
    then Int.lor flags env.S2D_FULLSCREEN else flags
  let flags := if rb_iv_get w w.self "@highdpi" = VALUE.Qtrue
    then Int.lor flags env.S2D_HIGHDPI else flags
  let vp_w := rb_iv_get w w.self "@viewport_width"
  match (if vp_w = VALUE.Qnil then some width else NUM2INT env vp_w) with
  | none => Outcome.raise w
  | some viewport_width =>
  let vp_h := rb_iv_get w w.self "@viewport_height"
  match (if vp_h = VALUE.Qnil then some height else NUM2INT env vp_h) with
  | none => Outcome.raise w
  | some viewport_height =>
  let w := S2D_CreateWindow env title width height FrameFn.update FrameFn.render flags w
  let w := store_window (WindowStore.viewport_width viewport_width) w
  let w := store_window (WindowStore.viewport_height viewport_height) w
  let w := store_window (WindowStore.on_key KeyFn.on_key) w
  let w := store_window (WindowStore.on_key_down KeyFn.on_key_down) w
  let w := store_window (WindowStore.on_controller ControllerFn.on_controller) w
  (S2D_Show env events w).bind (fun w => Outcome.returned
    { w with registered_atexit := w.registered_atexit ++ [ExitFn.free_window] })

/-! ## A concrete environment and world

Doubles are stood in for by integers; the flag constants are those of
Simple 2D. -/

/-- An environment: only an Integer converts to an `int`; as a `double` an
Integer is itself and everything else is 0; Ruby methods do nothing and
return `nil`. -/
def demoEnv : Env Int where
  NUM2INT_other := fun _ => none
  NUM2DBL := fun v => match v with
    | VALUE.fixnum n => n
    | _ => 0
  RSTRING_PTR_other := fun _ => ""
  Data_Get_Struct_other := fun _ => 0
  double_to_int := fun d => d
  zero := 0
  S2D_RESIZABLE := 0x20
  S2D_BORDERLESS := 0x10
  S2D_FULLSCREEN := 0x1001
  S2D_HIGHDPI := 0x2000
  fresh_window :=
    { title := "", width := 0, height := 0, flags := 0, update := none, render := none,
      on_key := none, on_key_down := none, on_controller := none,
      viewport_width := 0, viewport_height := 0, mouse_x := 0, mouse_y := 0, fps := 0,
      background_r := 0, background_g := 0, background_b := 0, background_a := 0 }
  method := fun _ _ _ h => (VALUE.Qnil, h)

/-- Instance variables of the demo heap: window `obj 0` with a background
colour `obj 1` and the objects array `obj 2`; a triangle `obj 10`, a quad
`obj 11`, an image `obj 12`, a text `obj 13`, an object of unknown type
`obj 14`; colours `obj 21 .. obj 24`.  A second window `obj 5` has the
objects array `obj 3`, which starts with `obj 15`, whose `@type_id` is
2^31; a third window `obj 6` has a `@viewport_width` of 2^31; `obj 16` is
an image that is in no array. -/
def demoIvars : VALUE → String → VALUE
  | VALUE.obj 0, "@background" => VALUE.obj 1
  | VALUE.obj 0, "@objects" => VALUE.obj 2
  | VALUE.obj 0, "@title" => VALUE.str "demo"
  | VALUE.obj 0, "@width" => VALUE.fixnum 640
  | VALUE.obj 0, "@height" => VALUE.fixnum 480
  | VALUE.obj 0, "@resizable" => VALUE.Qtrue
  | VALUE.obj 0, "@borderless" => VALUE.Qfalse
  | VALUE.obj 0, "@highdpi" => VALUE.fixnum 1
  | VALUE.obj 0, "@viewport_height" => VALUE.fixnum 240
  | VALUE.obj 5, "@background" => VALUE.obj 1
  | VALUE.obj 5, "@objects" => VALUE.obj 3
  | VALUE.obj 6, "@title" => VALUE.str "wide"
  | VALUE.obj 6, "@width" => VALUE.fixnum 640
  | VALUE.obj 6, "@height" => VALUE.fixnum 480
  | VALUE.obj 6, "@viewport_width" => VALUE.fixnum 2147483648
  | VALUE.obj 1, "@r" => VALUE.fixnum 1
  | VALUE.obj 1, "@g" => VALUE.fixnum 2
  | VALUE.obj 1, "@b" => VALUE.fixnum 3
  | VALUE.obj 1, "@a" => VALUE.fixnum 4
  | VALUE.obj 10, "@type_id" => VALUE.fixnum 1
  | VALUE.obj 11, "@type_id" => VALUE.fixnum 2
  | VALUE.obj 12, "@type_id" => VALUE.fixnum 3
  | VALUE.obj 13, "@type_id" => VALUE.fixnum 4
  | VALUE.obj 14, "@type_id" => VALUE.fixnum 7
  | VALUE.obj 15, "@type_id" => VALUE.fixnum 2147483648
  | VALUE.obj 16, "@type_id" => VALUE.fixnum 3
  | VALUE.obj 16, "@path" => VALUE.str "c.png"
  | VALUE.obj 12, "@path" => VALUE.str "a.png"
  | VALUE.obj 13, "@font" => VALUE.str "f.ttf"
  | VALUE.obj 13, "@text" => VALUE.str "hello"
  | VALUE.obj 13, "@size" => VALUE.fixnum 20
  | VALUE.obj _, "@x" => VALUE.fixnum 100
  | VALUE.obj _, "@y" => VALUE.fixnum 200
  | VALUE.obj _, "@x1" => VALUE.fixnum 11
  | VALUE.obj _, "@y1" => VALUE.fixnum 12
  | VALUE.obj _, "@x2" => VALUE.fixnum 21
  | VALUE.obj _, "@y2" => VALUE.fixnum 22
  | VALUE.obj _, "@x3" => VALUE.fixnum 31
  | VALUE.obj _, "@y3" => VALUE.fixnum 32
  | VALUE.obj _, "@x4" => VALUE.fixnum 41
  | VALUE.obj _, "@y4" => VALUE.fixnum 42
  | VALUE.obj _, "@c1" => VALUE.obj 21
  | VALUE.obj _, "@c2" => VALUE.obj 22
  | VALUE.obj _, "@c3" => VALUE.obj 23
  | VALUE.obj _, "@c4" => VALUE.obj 24
  | VALUE.obj (n + 21), "@r" => VALUE.fixnum (100 * (n + 1) + 1)
  | VALUE.obj (n + 21), "@g" => VALUE.fixnum (100 * (n + 1) + 2)
  | VALUE.obj (n + 21), "@b" => VALUE.fixnum (100 * (n + 1) + 3)
  | VALUE.obj (n + 21), "@a" => VALUE.fixnum (100 * (n + 1) + 4)
  | _, _ => VALUE.Qnil

/-- A world before the first `show`. -/
def demoWorld : World Int where
  self := VALUE.Qfalse
  window := demoEnv.fresh_window
  heap :=
    { ivars := demoIvars
      elems := fun v => match v with
        | VALUE.obj 2 => [VALUE.obj 10, VALUE.obj 14, VALUE.obj 12, VALUE.obj 11,
            VALUE.obj 13, VALUE.obj 12]
        | VALUE.obj 3 => [VALUE.obj 15, VALUE.obj 10, VALUE.obj 12]
        | _ => [] }
  images := fun _ => { path := "", x := 0, y := 0 }
  texts := fun _ => { font := "", msg := "", size := 0, x := 0, y := 0 }
  next_ptr := 0
  registered_atexit := []
  log := []

/-- The demo world with `self` set to the window `obj 0`, as the callbacks
find it while the window is shown. -/
def demoWindowWorld : World Int :=
  { demoWorld with self := VALUE.obj 0 }

/-- The demo world with `self` set to the window `obj 5`, whose first object
has a `@type_id` of 2^31. -/
def demoBadWorld : World Int :=
  { demoWorld with self := VALUE.obj 5 }

/-- A Ruby side for the demo world: `update_callback` appends a second
image, `obj 16`, to the objects of the window; no method touches an instance
variable. -/
def demoGrowingEnv : Env Int :=
  { demoEnv with
    method := fun _ mid _ h =>
      if mid = "update_callback" then
        (VALUE.Qnil,
          { h with elems := fun v =>
              if v = VALUE.obj 2 then h.elems v ++ [VALUE.obj 16] else h.elems v })
      else (VALUE.Qnil, h) }

/-! ## Vocabulary of the statements -/

/-- The four native draw functions. -/
inductive DrawFn where
  | S2D_DrawTriangle
  | S2D_DrawQuad
  | S2D_DrawImage
  | S2D_DrawText
  deriving DecidableEq, Repr

/-- The draw function an event is a call of, if it is a draw call. -/
def Event.draw_fn : Event D → Option DrawFn
  | Event.S2D_DrawTriangle _ => some DrawFn.S2D_DrawTriangle
  | Event.S2D_DrawQuad _ => some DrawFn.S2D_DrawQuad
  | Event.S2D_DrawImage _ _ => some DrawFn.S2D_DrawImage
  | Event.S2D_DrawText _ _ => some DrawFn.S2D_DrawText
  | _ => none

/-- The dispatch table as the specification words it: 1, 2, 3, 4 select
triangle, quad, image, text; no other number selects anything. -/
def dispatch_table (type_id : Int) : Option DrawFn :=
  if type_id = 1 then some DrawFn.S2D_DrawTriangle
  else if type_id = 2 then some DrawFn.S2D_DrawQuad
  else if type_id = 3 then some DrawFn.S2D_DrawImage
  else if type_id = 4 then some DrawFn.S2D_DrawText
  else none

/-- The `@type_id` of an object as the C code reads it: the `int`, or `none`
when the conversion raises. -/
def type_id_of (env : Env D) (w : World D) (el : VALUE) : Option Int :=
  NUM2INT env (rb_iv_get w el "@type_id")

/-- The draw function the table selects for an object, none when the table
has no entry for its type or the type is not an `int`. -/
def draw_fn_of (env : Env D) (w : World D) (el : VALUE) : Option DrawFn :=
  (type_id_of env w el).bind dispatch_table

/-- The six attributes of vertex `i` of a shape, in the order the
specification lists them: `@x_i, @y_i`, then `@r, @g, @b, @a` of `@c_i`. -/
def vertex_attributes (env : Env D) (w : World D) (el : VALUE) (i : Nat) : List D :=
  let c := rb_iv_get w el ("@c" ++ toString i)
  [env.NUM2DBL (rb_iv_get w el ("@x" ++ toString i)),
   env.NUM2DBL (rb_iv_get w el ("@y" ++ toString i)),
   env.NUM2DBL (rb_iv_get w c "@r"),
   env.NUM2DBL (rb_iv_get w c "@g"),
   env.NUM2DBL (rb_iv_get w c "@b"),
   env.NUM2DBL (rb_iv_get w c "@a")]

/-- Whether an event is the creation of a native image or text. -/
def Event.is_create : Event D → Bool
  | Event.S2D_CreateImage _ _ => true
  | Event.S2D_CreateText _ _ _ _ => true
  | _ => false

/-- Whether an event is a call of a Ruby method other than `Array#count`,
that is, of one of the callbacks of the window. -/
def Event.is_callback : Event D → Bool
  | Event.rb_funcall _ mid _ => mid != "count"
  | _ => false

/-- Whether an event is a call of `S2D_DrawTriangle` or `S2D_DrawQuad`. -/
def Event.is_shape : Event D → Bool
  | Event.S2D_DrawTriangle _ => true
  | Event.S2D_DrawQuad _ => true
  | _ => false

/-- Whether an event is an assignment to a field of the window. -/
def Event.is_window_store : Event D → Bool
  | Event.window_store _ => true
  | _ => false

/-- Whether an event is an assignment of `@data`, of any object. -/
def Event.is_data_store : Event D → Bool
  | Event.rb_iv_set _ name _ => name == "@data"
  | _ => false

/-- What was logged between the world `w` and a later world. -/
def emitted (w later : World D) : List (Event D) :=
  later.log.drop w.log.length

/-- An image or text object that has no native handle yet. -/
def needs_handle (env : Env D) (w : World D) (el : VALUE) : Prop :=
  (type_id_of env w el = some IMAGE ∨ type_id_of env w el = some TEXT) ∧
    rb_iv_get w el "@data" = VALUE.Qnil

instance (env : Env D) (w : World D) (el : VALUE) : Decidable (needs_handle env w el) := by
  unfold needs_handle
  exact inferInstance

/-- The instance variables `update` hands to the Ruby side: `@mouse_x`,
`@mouse_y` and `@fps` of the window hold the current values of the native
window, every other variable of every object is as before. -/
def published (w : World D) : VALUE → String → VALUE := fun o n =>
  if o = w.self ∧ n = "@mouse_x" then VALUE.fixnum w.window.mouse_x
  else if o = w.self ∧ n = "@mouse_y" then VALUE.fixnum w.window.mouse_y
  else if o = w.self ∧ n = "@fps" then VALUE.fixnum w.window.fps
  else w.heap.ivars o n

/-- The Ruby call the specification expects for a native event: one
callback on the window `s` for a key, a key press, a controller input and an
update tick; none for a refresh of the input state or a render tick. -/
def expected_call (s : VALUE) : NativeEvent → Option (Event D)
  | NativeEvent.key k => some (Event.rb_funcall s "key_callback" [VALUE.str k])
  | NativeEvent.key_down k => some (Event.rb_funcall s "key_down_callback" [VALUE.str k])
  | NativeEvent.controller _ is_axis axis val is_btn btn =>
    some (Event.rb_funcall s "controller_callback"
      [if is_axis then VALUE.Qtrue else VALUE.Qfalse, VALUE.fixnum axis, VALUE.fixnum val,
       if is_btn then VALUE.Qtrue else VALUE.Qfalse, VALUE.fixnum btn])
  | NativeEvent.update => some (Event.rb_funcall s "update_callback" [])
  | NativeEvent.input _ _ _ => none
  | NativeEvent.render => none

/-- The window belongs to `s`: `self` is `s` and the five hooks of the
window are the callbacks of this file. -/
def hooked (s : VALUE) (w : World D) : Prop :=
  w.self = s ∧
  w.window.on_key = some KeyFn.on_key ∧
  w.window.on_key_down = some KeyFn.on_key_down ∧
  w.window.on_controller = some ControllerFn.on_controller ∧
  w.window.update = some FrameFn.update ∧
  w.window.render = some FrameFn.render

/-- Two windows agree on everything `ruby2d_show` sets up. -/
def same_setup (a b : S2D_Window D) : Prop :=
  a.title = b.title ∧ a.width = b.width ∧ a.height = b.height ∧ a.flags = b.flags ∧
  a.viewport_width = b.viewport_width ∧ a.viewport_height = b.viewport_height ∧
  a.on_key = b.on_key ∧ a.on_key_down = b.on_key_down ∧
  a.on_controller = b.on_controller ∧ a.update = b.update ∧ a.render = b.render

/-- The window flags whose attribute on `s` is identical to `true`, in the
order resizable, borderless, fullscreen, highdpi. -/
def true_flags (env : Env D) (w : World D) (s : VALUE) : List Int :=
  ([("@resizable", env.S2D_RESIZABLE), ("@borderless", env.S2D_BORDERLESS),
    ("@fullscreen", env.S2D_FULLSCREEN), ("@highdpi", env.S2D_HIGHDPI)].filter
      (fun p => decide (rb_iv_get w s p.1 = VALUE.Qtrue))).map (fun p => p.2)

/-- The flags value the specification expects: the bitwise OR of the flags
whose attribute is `true`, 0 when there is none. -/
def expected_flags (env : Env D) (w : World D) (s : VALUE) : Int :=
  (true_flags env w s).foldl Int.lor 0

/-- The viewport width the specification expects, `none` when the attribute
it comes from does not convert to an `int`. -/
def expected_viewport_width (env : Env D) (w : World D) (s : VALUE) : Option Int :=
  if rb_iv_get w s "@viewport_width" = VALUE.Qnil
  then NUM2INT env (rb_iv_get w s "@width")
  else NUM2INT env (rb_iv_get w s "@viewport_width")

/-- The viewport height the specification expects, `none` when the attribute
it comes from does not convert to an `int`. -/
def expected_viewport_height (env : Env D) (w : World D) (s : VALUE) : Option Int :=
  if rb_iv_get w s "@viewport_height" = VALUE.Qnil
  then NUM2INT env (rb_iv_get w s "@height")
  else NUM2INT env (rb_iv_get w s "@viewport_height")

/-- The four numbers `ruby2d_show(s)` needs: width, height, viewport width
and viewport height of the window; `none` when one of the conversions that
`ruby2d_show` performs raises. -/
def window_sizes (env : Env D) (w : World D) (s : VALUE) :
    Option (Int × Int × Int × Int) :=
  match NUM2INT env (rb_iv_get w s "@width"), NUM2INT env (rb_iv_get w s "@height"),
    expected_viewport_width env w s, expected_viewport_height env w s with
  | some width, some height, some vw, some vh => some (width, height, vw, vh)
  | _, _, _, _ => none

/-- The world in which `ruby2d_show(s)` enters the Simple 2D loop when the
four sizes are `int`s: the window is created and its viewport and hooks are
assigned. -/
def show_entry (env : Env D) (w : World D) (s : VALUE) (width height vw vh : Int) :
    World D :=
  { w with
    self := s
    window := { env.fresh_window with
      title := RSTRING_PTR env (rb_iv_get w s "@title")
      width := width
      height := height
      flags := expected_flags env w s
      update := some FrameFn.update
      render := some FrameFn.render
      viewport_width := vw
      viewport_height := vh
      on_key := some KeyFn.on_key
      on_key_down := some KeyFn.on_key_down
      on_controller := some ControllerFn.on_controller }
    log := w.log ++
      [Event.S2D_CreateWindow (RSTRING_PTR env (rb_iv_get w s "@title")) width height
        FrameFn.update FrameFn.render (expected_flags env w s),
       Event.window_store (WindowStore.viewport_width vw),
       Event.window_store (WindowStore.viewport_height vh),
       Event.window_store (WindowStore.on_key KeyFn.on_key),
       Event.window_store (WindowStore.on_key_down KeyFn.on_key_down),
       Event.window_store (WindowStore.on_controller ControllerFn.on_controller),
       Event.S2D_Show] }

/-- The array `@objects` of the window. -/
def objects_of (w : World D) : List VALUE :=
  w.heap.elems (rb_iv_get w w.self "@objects")

/-- The world in which the loop of `render` starts (lines 129-137 done):
the background colour is stored in the window and `count` has been called. -/
def loop_entry (env : Env D) (w : World D) : World D :=
  let bc := rb_iv_get w w.self "@background"
  { w with
    window := { w.window with
      background_r := env.NUM2DBL (rb_iv_get w bc "@r")
      background_g := env.NUM2DBL (rb_iv_get w bc "@g")
      background_b := env.NUM2DBL (rb_iv_get w bc "@b")
      background_a := env.NUM2DBL (rb_iv_get w bc "@a") }
    log := w.log ++
      [Event.window_store (WindowStore.background_r (env.NUM2DBL (rb_iv_get w bc "@r"))),
       Event.window_store (WindowStore.background_g (env.NUM2DBL (rb_iv_get w bc "@g"))),
       Event.window_store (WindowStore.background_b (env.NUM2DBL (rb_iv_get w bc "@b"))),
       Event.window_store (WindowStore.background_a (env.NUM2DBL (rb_iv_get w bc "@a"))),
       Event.rb_funcall (rb_iv_get w w.self "@objects") "count" []] }

/-- The call the specification expects for a triangle or a quad: the
attributes of the vertices 1 to 3, or 1 to 4, one vertex after the other. -/
def shape_call (env : Env D) (w : World D) (el : VALUE) : Option (Event D) :=
  if type_id_of env w el = some 1 then
    some (Event.S2D_DrawTriangle ((List.range' 1 3).flatMap (vertex_attributes env w el)))
  else if type_id_of env w el = some 2 then
    some (Event.S2D_DrawQuad ((List.range' 1 4).flatMap (vertex_attributes env w el)))
  else none

/-- The elements of a list up to the first whose `@type_id` is not an
`int`. -/
def visited_of (env : Env D) (w : World D) (els : List VALUE) : List VALUE :=
  els.takeWhile (fun el => (type_id_of env w el).isSome)

/-- The objects a `render` gets to: none when the length of `@objects` is
not an `int`, otherwise those before the first whose `@type_id` is not an
`int`, all of them when there is no such object. -/
def visited (env : Env D) (w : World D) : List VALUE :=
  if ((objects_of w).length : Int) ≤ INT_MAX then visited_of env w (objects_of w) else []

/-- A loop iteration that returns: the `switch` for the type of the element;
nothing when the type is not an `int`. -/
def step (env : Env D) (el : VALUE) (w : World D) : World D :=
  match type_id_of env w el with
  | some type_id => render_switch env el type_id w
  | none => w

/-- Iterations that return, one element after the other. -/
def step_all (env : Env D) (els : List VALUE) (w : World D) : World D :=
  els.foldl (fun v el => step env el v) w

/-- The loop of `render` over a list of elements instead of an index. -/
def render_all (env : Env D) (els : List VALUE) (w : World D) : Outcome D :=
  els.foldl (fun o el => o.bind (render_object env el)) (Outcome.returned w)

end Ruby2D

namespace Ruby2D

variable {D : Type}

/-! ## The model at work on the demo world -/

/-- One `render` of the demo window: the background, `count`, then the
triangle, nothing for the object of type 7, the image (created, stored in
`@data`, then drawn), the quad, the text (the same) and the image once more,
now without a creation. -/
theorem demo_render_log :
    (render demoEnv demoWindowWorld).raised = false ∧
    (render demoEnv demoWindowWorld).world.log =
      ([Event.window_store (WindowStore.background_r 1),
        Event.window_store (WindowStore.background_g 2),
        Event.window_store (WindowStore.background_b 3),
        Event.window_store (WindowStore.background_a 4),
        Event.rb_funcall (VALUE.obj 2) "count" [],
        Event.S2D_DrawTriangle
        [11, 12, 101, 102, 103, 104, 21, 22, 201, 202, 203, 204, 31, 32, 301, 302, 303, 304],
        Event.S2D_CreateImage "a.png" 0,
        Event.rb_iv_set (VALUE.obj 12) "@data" (VALUE.data 0),
        Event.S2D_DrawImage 0 { path := "a.png", x := 100, y := 200 },
        Event.S2D_DrawQuad
        [11, 12, 101, 102, 103, 104, 21, 22, 201, 202, 203, 204, 31, 32, 301, 302, 303, 304,
         41, 42, 401, 402, 403, 404],
        Event.S2D_CreateText "f.ttf" "hello" 20 1,
        Event.rb_iv_set (VALUE.obj 13) "@data" (VALUE.data 1),
        Event.S2D_DrawText 1
        { font := "f.ttf", msg := "hello", size := 20, x := 100, y := 200 },
        Event.S2D_DrawImage 0 { path := "a.png", x := 100, y := 200 }] :
        List (Event Int)) := by
  decide

/-- `show` on the demo window with a key, an input refresh, an update tick
and a controller input: the window is created resizable (`@highdpi` is 1,
not `true`) and each event reaches the window `obj 0`. -/
theorem demo_show_log :
    (ruby2d_show demoEnv (VALUE.obj 0)
      [NativeEvent.key "a", NativeEvent.input 3 4 60, NativeEvent.update,
       NativeEvent.controller 1 true 2 3 false 4] demoWorld).world.log =
      ([Event.S2D_CreateWindow "demo" 640 480 FrameFn.update FrameFn.render 32,
        Event.window_store (WindowStore.viewport_width 640),
        Event.window_store (WindowStore.viewport_height 240),
        Event.window_store (WindowStore.on_key KeyFn.on_key),
        Event.window_store (WindowStore.on_key_down KeyFn.on_key_down),
        Event.window_store (WindowStore.on_controller ControllerFn.on_controller),
        Event.S2D_Show,
        Event.rb_funcall (VALUE.obj 0) "key_callback" [VALUE.str "a"],
        Event.rb_iv_set (VALUE.obj 0) "@mouse_x" (VALUE.fixnum 3),
        Event.rb_iv_set (VALUE.obj 0) "@mouse_y" (VALUE.fixnum 4),
        Event.rb_iv_set (VALUE.obj 0) "@fps" (VALUE.fixnum 60),
        Event.rb_funcall (VALUE.obj 0) "update_callback" [],
        Event.rb_funcall (VALUE.obj 0) "controller_callback"
        [VALUE.Qtrue, VALUE.fixnum 2, VALUE.fixnum 3, VALUE.Qfalse, VALUE.fixnum 4]] :
        List (Event Int)) := by
  decide

/-- A show with a render tick, an update tick whose callback adds the image
`obj 16` to the objects, and a second render tick: the first render creates
the handles of the image `obj 12` and of the text `obj 13`, the second one
only that of the new image. -/
theorem demo_growing_show :
    (ruby2d_show demoGrowingEnv (VALUE.obj 0)
      [NativeEvent.render, NativeEvent.update, NativeEvent.render] demoWorld).raised = false ∧
    (emitted demoWorld (ruby2d_show demoGrowingEnv (VALUE.obj 0)
      [NativeEvent.render, NativeEvent.update, NativeEvent.render] demoWorld).world).filter
        (fun e => Event.is_create e || Event.is_data_store e) =
      ([Event.S2D_CreateImage "a.png" 0,
        Event.rb_iv_set (VALUE.obj 12) "@data" (VALUE.data 0),
        Event.S2D_CreateText "f.ttf" "hello" 20 1,
        Event.rb_iv_set (VALUE.obj 13) "@data" (VALUE.data 1),
        Event.S2D_CreateImage "c.png" 2,
        Event.rb_iv_set (VALUE.obj 16) "@data" (VALUE.data 2)] : List (Event Int)) := by
  decide

/-- A `render` of the window whose first object has the type 2^31: the
conversion raises, and neither the triangle nor the image behind it is
reached. -/
theorem demo_bad_render_log :
    (render demoEnv demoBadWorld).raised = true ∧
    (render demoEnv demoBadWorld).world.log =
      ([Event.window_store (WindowStore.background_r 1),
        Event.window_store (WindowStore.background_g 2),
        Event.window_store (WindowStore.background_b 3),
        Event.window_store (WindowStore.background_a 4),
        Event.rb_funcall (VALUE.obj 3) "count" []] : List (Event Int)) := by
  decide

/-! ## Helper lemmas: outcomes and the log -/

theorem bind_returned (w : World D) (f : World D → Outcome D) :
    (Outcome.returned w).bind f = f w := rfl

theorem bind_raise (w : World D) (f : World D → Outcome D) :
    (Outcome.raise w).bind f = Outcome.raise w := rfl

theorem foldl_bind_raise {α : Type} (f : α → World D → Outcome D) (l : List α)
    (w : World D) :
    l.foldl (fun o a => o.bind (f a)) (Outcome.raise w) = Outcome.raise w := by
  induction l with
  | nil => rfl
  | cons a l ih => simpa [List.foldl_cons, bind_raise] using ih

theorem emitted_self (w : World D) : emitted w w = [] := by
  simp [emitted]

theorem emitted_of_log_eq (w later : World D) (d : List (Event D))
    (h : later.log = w.log ++ d) : emitted w later = d := by
  simp [emitted, h]

theorem emitted_trans (w mid later : World D) (h1 : mid.log = w.log ++ emitted w mid)
    (h2 : later.log = mid.log ++ emitted mid later) :
    later.log = w.log ++ emitted w later ∧
      emitted w later = emitted w mid ++ emitted mid later := by
  have h : later.log = w.log ++ (emitted w mid ++ emitted mid later) := by
    rw [← List.append_assoc, ← h1, ← h2]
  rw [emitted_of_log_eq w later _ h]
  exact ⟨h, rfl⟩

/-! ## Helper lemmas: the `switch` -/

/-- The `switch` leaves `self`, the window, the arrays and the `atexit` list
alone. -/
theorem render_switch_frame (env : Env D) (el : VALUE) (t : Int) (w : World D) :
    (render_switch env el t w).self = w.self ∧
    (render_switch env el t w).window = w.window ∧
    (render_switch env el t w).heap.elems = w.heap.elems ∧
    (render_switch env el t w).registered_atexit = w.registered_atexit := by
  unfold render_switch
  simp only [S2D_DrawTriangle, S2D_DrawQuad, S2D_DrawImage, S2D_DrawText, store_img_x,
    store_img_y, store_txt_x, store_txt_y, init_image, init_text, S2D_CreateImage,
    S2D_CreateText, rb_iv_set, with_ivar]
  split_ifs <;> simp

/-- The only instance variable the `switch` can write is `@data` of the
element, and only for an image or a text without a handle; the value written
wraps the next free pointer. -/
theorem render_switch_ivars (env : Env D) (el : VALUE) (t : Int) (w : World D) (o : VALUE)
    (n : String) :
    rb_iv_get (render_switch env el t w) o n =
      if (o = el ∧ n = "@data") ∧ ((t = IMAGE ∨ t = TEXT) ∧ rb_iv_get w el "@data" = VALUE.Qnil)
      then VALUE.data w.next_ptr else rb_iv_get w o n := by
  unfold render_switch
  simp only [S2D_DrawTriangle, S2D_DrawQuad, S2D_DrawImage, S2D_DrawText, store_img_x,
    store_img_y, store_txt_x, store_txt_y, init_image, init_text, S2D_CreateImage,
    S2D_CreateText, rb_iv_set, with_ivar, rb_iv_get, Data_Wrap_Struct, TRIANGLE, QUAD, IMAGE,
    TEXT]
  split_ifs <;> simp_all

/-- What the `switch` logs: the draw call the dispatch table selects,
preceded by a creation and the assignment of `@data` exactly for an image or
a text without a handle; no Ruby method is called and the window is not
assigned to. -/
theorem render_switch_log (env : Env D) (el : VALUE) (t : Int) (w : World D) :
    (render_switch env el t w).log = w.log ++ emitted w (render_switch env el t w) ∧
    (emitted w (render_switch env el t w)).filterMap Event.draw_fn =
      (dispatch_table t).toList ∧
    ((emitted w (render_switch env el t w)).filter Event.is_create).length =
      (if (t = IMAGE ∨ t = TEXT) ∧ rb_iv_get w el "@data" = VALUE.Qnil then 1 else 0) ∧
    ((emitted w (render_switch env el t w)).filter Event.is_data_store).length =
      (if (t = IMAGE ∨ t = TEXT) ∧ rb_iv_get w el "@data" = VALUE.Qnil then 1 else 0) ∧
    (emitted w (render_switch env el t w)).filter Event.is_callback = [] ∧
    (emitted w (render_switch env el t w)).filter Event.is_window_store = [] := by
  unfold emitted render_switch dispatch_table
  simp only [S2D_DrawTriangle, S2D_DrawQuad, S2D_DrawImage, S2D_DrawText, store_img_x,
    store_img_y, store_txt_x, store_txt_y, init_image, init_text, S2D_CreateImage,
    S2D_CreateText, rb_iv_set, with_ivar, rb_iv_get, Data_Wrap_Struct, TRIANGLE, QUAD, IMAGE,
    TEXT]
  split_ifs <;>
    simp_all [Event.draw_fn, Event.is_create, Event.is_callback, Event.is_window_store,
      Event.is_data_store]

theorem needs_handle_some (env : Env D) (w : World D) (el : VALUE) (t : Int)
    (h : type_id_of env w el = some t) :
    needs_handle env w el ↔
      ((t = IMAGE ∨ t = TEXT) ∧ rb_iv_get w el "@data" = VALUE.Qnil) := by
  unfold needs_handle
  rw [h]
  simp

theorem needs_handle_none (env : Env D) (w : World D) (el : VALUE)
    (h : type_id_of env w el = none) : ¬ needs_handle env w el := by
  unfold needs_handle
  rw [h]
  simp

theorem step_some (env : Env D) (el : VALUE) (w : World D) (t : Int)
    (h : type_id_of env w el = some t) : step env el w = render_switch env el t w := by
  unfold step
  rw [h]

theorem step_none (env : Env D) (el : VALUE) (w : World D)
    (h : type_id_of env w el = none) : step env el w = w := by
  unfold step
  rw [h]

/-- An iteration returns with the result of the `switch` when `@type_id` is
an `int`, and raises, leaving the world as it is, when not. -/
theorem render_object_eq (env : Env D) (el : VALUE) (w : World D) :
    render_object env el w =
      if (type_id_of env w el).isSome then Outcome.returned (step env el w)
      else Outcome.raise w := by
  unfold render_object
  cases h : type_id_of env w el with
  | none =>
    unfold type_id_of at h
    simp [h]
  | some t =>
    rw [step_some env el w t h]
    unfold type_id_of at h
    simp [h]

theorem step_frame (env : Env D) (el : VALUE) (w : World D) :
    (step env el w).self = w.self ∧
    (step env el w).window = w.window ∧
    (step env el w).heap.elems = w.heap.elems ∧
    (step env el w).registered_atexit = w.registered_atexit := by
  cases h : type_id_of env w el with
  | none => simp [step_none env el w h]
  | some t =>
    rw [step_some env el w t h]
    exact render_switch_frame env el t w

theorem step_ivars (env : Env D) (el : VALUE) (w : World D) (o : VALUE) (n : String) :
    rb_iv_get (step env el w) o n =
      if (o = el ∧ n = "@data") ∧ needs_handle env w el
      then VALUE.data w.next_ptr else rb_iv_get w o n := by
  cases h : type_id_of env w el with
  | none => simp [step_none env el w h, needs_handle_none env w el h]
  | some t =>
    rw [step_some env el w t h, render_switch_ivars]
    simp only [needs_handle_some env w el t h]

theorem step_log (env : Env D) (el : VALUE) (w : World D) :
    (step env el w).log = w.log ++ emitted w (step env el w) ∧
    (emitted w (step env el w)).filterMap Event.draw_fn = (draw_fn_of env w el).toList ∧
    ((emitted w (step env el w)).filter Event.is_create).length =
      (if needs_handle env w el then 1 else 0) ∧
    ((emitted w (step env el w)).filter Event.is_data_store).length =
      (if needs_handle env w el then 1 else 0) ∧
    (emitted w (step env el w)).filter Event.is_callback = [] ∧
    (emitted w (step env el w)).filter Event.is_window_store = [] := by
  cases h : type_id_of env w el with
  | none =>
    simp [step_none env el w h, needs_handle_none env w el h, emitted_self, draw_fn_of, h]
  | some t =>
    rw [step_some env el w t h]
    have hd : draw_fn_of env w el = dispatch_table t := by
      unfold draw_fn_of
      rw [h]
      rfl
    rw [hd]
    simp only [needs_handle_some env w el t h]
    exact render_switch_log env el t w

theorem step_type_id (env : Env D) (el : VALUE) (w : World D) (o : VALUE) :
    type_id_of env (step env el w) o = type_id_of env w o := by
  unfold type_id_of
  rw [step_ivars]
  have h : ¬ ("@type_id" = "@data") := by decide
  simp [h]

theorem step_all_nil (env : Env D) (w : World D) : step_all env [] w = w := rfl

theorem step_all_cons (env : Env D) (el : VALUE) (els : List VALUE) (w : World D) :
    step_all env (el :: els) w = step_all env els (step env el w) := rfl

theorem step_all_frame (env : Env D) (els : List VALUE) (w : World D) :
    (step_all env els w).self = w.self ∧
    (step_all env els w).window = w.window ∧
    (step_all env els w).heap.elems = w.heap.elems ∧
    (step_all env els w).registered_atexit = w.registered_atexit := by
  induction els generalizing w with
  | nil => simp [step_all_nil]
  | cons el els ih =>
    rw [step_all_cons]
    obtain ⟨h1, h2, h3, h4⟩ := ih (step env el w)
    obtain ⟨g1, g2, g3, g4⟩ := step_frame env el w
    exact ⟨h1.trans g1, h2.trans g2, h3.trans g3, h4.trans g4⟩

/-- A `@data` that is not `nil` survives the loop. -/
theorem step_all_data (env : Env D) (els : List VALUE) (w : World D) (o : VALUE)
    (h : rb_iv_get w o "@data" ≠ VALUE.Qnil) :
    rb_iv_get (step_all env els w) o "@data" ≠ VALUE.Qnil := by
  induction els generalizing w with
  | nil => exact h
  | cons el els ih =>
    rw [step_all_cons]
    apply ih
    rw [step_ivars]
    split_ifs
    · simp
    · exact h

/-- What the loop logs: the draw calls are those the dispatch table selects
for the elements, in the order of the list; no callback is called and the
window is not assigned to. -/
theorem step_all_log (env : Env D) (els : List VALUE) (w : World D) :
    (step_all env els w).log = w.log ++ emitted w (step_all env els w) ∧
    (emitted w (step_all env els w)).filterMap Event.draw_fn =
      els.filterMap (draw_fn_of env w) ∧
    (emitted w (step_all env els w)).filter Event.is_callback = [] ∧
    (emitted w (step_all env els w)).filter Event.is_window_store = [] := by
  induction els generalizing w with
  | nil => simp [step_all_nil, emitted]
  | cons el els ih =>
    rw [step_all_cons]
    obtain ⟨h1, h2, h3, h4⟩ := ih (step env el w)
    obtain ⟨g1, g2, _, _, g5, g6⟩ := step_log env el w
    obtain ⟨k1, k2⟩ := emitted_trans w _ _ g1 h1
    have hd : draw_fn_of env (step env el w) = draw_fn_of env w := by
      funext o
      unfold draw_fn_of
      rw [step_type_id]
    refine ⟨k1, ?_, ?_, ?_⟩
    · rw [k2, List.filterMap_append, g2, h2, hd, List.filterMap_cons]
      cases draw_fn_of env w el <;> simp
    · rw [k2, List.filter_append, g5, h3]
      rfl
    · rw [k2, List.filter_append, g6, h4]
      rfl

theorem visited_of_congr (env : Env D) (w v : World D) (els : List VALUE)
    (h : ∀ o, type_id_of env v o = type_id_of env w o) :
    visited_of env v els = visited_of env w els := by
  unfold visited_of
  congr 1
  funext el
  rw [h]

/-- The loop ends in the world the returning iterations for the visited
elements produce; it raises exactly when an element is left unvisited. -/
theorem render_all_eq (env : Env D) (els : List VALUE) (w : World D) :
    (render_all env els w).world = step_all env (visited_of env w els) w ∧
    ((render_all env els w).raised = false ↔ visited_of env w els = els) := by
  induction els generalizing w with
  | nil => exact ⟨rfl, by simp [render_all, Outcome.returned, visited_of]⟩
  | cons el els ih =>
    have hc : render_all env (el :: els) w =
        els.foldl (fun o e => o.bind (render_object env e)) (render_object env el w) := rfl
    rw [hc, render_object_eq]
    cases h : type_id_of env w el with
    | none =>
      simp only [Option.isSome_none, Bool.false_eq_true, if_false, foldl_bind_raise]
      simp [visited_of, h, Outcome.raise, step_all_nil]
    | some t =>
      simp only [Option.isSome_some, if_true]
      have hv : visited_of env w (el :: els) = el :: visited_of env (step env el w) els := by
        rw [visited_of_congr env w (step env el w) els (step_type_id env el w)]
        simp [visited_of, h]
      obtain ⟨i1, i2⟩ := ih (step env el w)
      rw [hv, step_all_cons]
      refine ⟨i1, ?_⟩
      show (render_all env els (step env el w)).raised = false ↔ _
      rw [i2]
      simp

theorem render_object_elems (env : Env D) (el : VALUE) (w : World D) :
    (render_object env el w).world.heap.elems = w.heap.elems := by
  rw [render_object_eq]
  split_ifs
  · exact (step_frame env el w).2.2.1
  · rfl

/-- The counted loop of `render` visits the elements of the array in order. -/
theorem index_loop_eq (env : Env D) (objects : VALUE) (idx : List Nat) (o : Outcome D) :
    idx.foldl (fun o i => o.bind (fun v => render_object env (rb_ary_entry v objects i) v)) o =
      (idx.map (fun i => ((o.world.heap.elems objects)[i]?).getD VALUE.Qnil)).foldl
        (fun o el => o.bind (render_object env el)) o := by
  induction idx generalizing o with
  | nil => rfl
  | cons i idx ih =>
    simp only [List.foldl_cons, List.map_cons]
    rw [ih]
    have h1 : o.bind (fun v => render_object env (rb_ary_entry v objects i) v) =
        o.bind (render_object env (((o.world.heap.elems objects)[i]?).getD VALUE.Qnil)) := by
      unfold Outcome.bind
      split_ifs
      · rfl
      · rfl
    have h2 : (o.bind (render_object env
        (((o.world.heap.elems objects)[i]?).getD VALUE.Qnil))).world.heap.elems =
        o.world.heap.elems := by
      unfold Outcome.bind
      split_ifs
      · rfl
      · exact render_object_elems env _ _
    rw [h1, h2]

theorem map_getElem_range (l : List VALUE) :
    (List.range l.length).map (fun i => (l[i]?).getD VALUE.Qnil) = l := by
  apply List.ext_getElem
  · simp
  · intro i h1 h2
    simp [h2]

theorem NUM2INT_length (env : Env D) (n : Nat) :
    NUM2INT env (INT2NUM n) = if (n : Int) ≤ INT_MAX then some (n : Int) else none := by
  unfold NUM2INT INT2NUM to_integer
  have h : INT_MIN ≤ (n : Int) := by
    unfold INT_MIN
    omega
  simp [h]

/-- Lines 129-137 of `render` end in `loop_entry`. -/
theorem render_prologue (env : Env D) (w : World D) :
    render env w =
      match NUM2INT env (INT2NUM (objects_of w).length) with
      | none => Outcome.raise (loop_entry env w)
      | some num_objects =>
        (List.range num_objects.toNat).foldl
          (fun o i => o.bind (fun v =>
            render_object env (rb_ary_entry v (rb_iv_get w w.self "@objects") i) v))
          (Outcome.returned (loop_entry env w)) := by
  have hl : (rb_funcall env (rb_iv_get w w.self "@objects") "count" []
      (store_window (WindowStore.background_a (env.NUM2DBL
        (rb_iv_get w (rb_iv_get w w.self "@background") "@a")))
      (store_window (WindowStore.background_b (env.NUM2DBL
        (rb_iv_get w (rb_iv_get w w.self "@background") "@b")))
      (store_window (WindowStore.background_g (env.NUM2DBL
        (rb_iv_get w (rb_iv_get w w.self "@background") "@g")))
      (store_window (WindowStore.background_r (env.NUM2DBL
        (rb_iv_get w (rb_iv_get w w.self "@background") "@r"))) w))))) =
      (INT2NUM (objects_of w).length, loop_entry env w) := by
    simp [rb_funcall, store_window, WindowStore.apply, loop_entry, objects_of, rb_iv_get]
  unfold render
  simp only [rb_iv_get] at hl ⊢
  simp only [store_window] at hl ⊢
  rw [hl]

/-- A `render` ends in the world the returning iterations for the visited
objects produce from `loop_entry`; it returns exactly when it has visited
every object. -/
theorem render_eq (env : Env D) (w : World D) :
    (render env w).world = step_all env (visited env w) (loop_entry env w) ∧
    ((render env w).raised = false ↔
      ((objects_of w).length : Int) ≤ INT_MAX ∧ visited env w = objects_of w) := by
  rw [render_prologue, NUM2INT_length]
  unfold visited
  by_cases hlen : ((objects_of w).length : Int) ≤ INT_MAX
  · simp only [hlen, if_true, true_and, Int.toNat_ofNat]
    rw [index_loop_eq]
    have he : (Outcome.returned (loop_entry env w)).world.heap.elems
        (rb_iv_get w w.self "@objects") = objects_of w := rfl
    rw [he, map_getElem_range]
    have hv : visited_of env (loop_entry env w) (objects_of w) =
        visited_of env w (objects_of w) :=
      visited_of_congr env w _ _ (fun _ => rfl)
    have h := render_all_eq env (objects_of w) (loop_entry env w)
    rw [hv] at h
    exact h
  · simp only [hlen, if_false, false_and, iff_false]
    exact ⟨rfl, by simp [Outcome.raise]⟩

theorem loop_entry_log (env : Env D) (w : World D) :
    (loop_entry env w).log = w.log ++ emitted w (loop_entry env w) ∧
    emitted w (loop_entry env w) =
      [Event.window_store (WindowStore.background_r
        (env.NUM2DBL (rb_iv_get w (rb_iv_get w w.self "@background") "@r"))),
       Event.window_store (WindowStore.background_g
        (env.NUM2DBL (rb_iv_get w (rb_iv_get w w.self "@background") "@g"))),
       Event.window_store (WindowStore.background_b
        (env.NUM2DBL (rb_iv_get w (rb_iv_get w w.self "@background") "@b"))),
       Event.window_store (WindowStore.background_a
        (env.NUM2DBL (rb_iv_get w (rb_iv_get w w.self "@background") "@a"))),
       Event.rb_funcall (rb_iv_get w w.self "@objects") "count" []] := by
  have h : (loop_entry env w).log = w.log ++
      [Event.window_store (WindowStore.background_r
        (env.NUM2DBL (rb_iv_get w (rb_iv_get w w.self "@background") "@r"))),
       Event.window_store (WindowStore.background_g
        (env.NUM2DBL (rb_iv_get w (rb_iv_get w w.self "@background") "@g"))),
       Event.window_store (WindowStore.background_b
        (env.NUM2DBL (rb_iv_get w (rb_iv_get w w.self "@background") "@b"))),
       Event.window_store (WindowStore.background_a
        (env.NUM2DBL (rb_iv_get w (rb_iv_get w w.self "@background") "@a"))),
       Event.rb_funcall (rb_iv_get w w.self "@objects") "count" []] := rfl
  rw [emitted_of_log_eq w _ _ h]
  exact ⟨h, rfl⟩

/-- The log of a `render`: the four assignments of the background, `count`,
then what the loop logs. -/
theorem render_log (env : Env D) (w : World D) :
    (render env w).world.log = w.log ++ emitted w (render env w).world ∧
    emitted w (render env w).world =
      emitted w (loop_entry env w) ++ emitted (loop_entry env w) (render env w).world ∧
    (render env w).world.log =
      (loop_entry env w).log ++ emitted (loop_entry env w) (render env w).world := by
  obtain ⟨h1, _⟩ := loop_entry_log env w
  have h3 := (step_all_log env (visited env w) (loop_entry env w)).1
  rw [← (render_eq env w).1] at h3
  obtain ⟨k1, k2⟩ := emitted_trans w _ _ h1 h3
  exact ⟨k1, k2, h3⟩

/-- The function `render` keeps `self`, changes the window in its background
only, and calls no callback. -/
theorem render_frame (env : Env D) (w : World D) :
    (render env w).world.self = w.self ∧
    (render env w).world.window = (loop_entry env w).window ∧
    same_setup (render env w).world.window w.window ∧
    (render env w).world.registered_atexit = w.registered_atexit ∧
    (render env w).world.heap.elems = w.heap.elems ∧
    (emitted w (render env w).world).filter Event.is_callback = [] := by
  have hf := step_all_frame env (visited env w) (loop_entry env w)
  rw [← (render_eq env w).1] at hf
  refine ⟨hf.1, hf.2.1, ?_, hf.2.2.2, hf.2.2.1, ?_⟩
  · rw [hf.2.1]
    exact ⟨rfl, rfl, rfl, rfl, rfl, rfl, rfl, rfl, rfl, rfl, rfl⟩
  · rw [(render_log env w).2.1, List.filter_append, (loop_entry_log env w).2,
      (render_eq env w).1, (step_all_log env (visited env w) (loop_entry env w)).2.2.1]
    simp [Event.is_callback]

theorem visited_of_sublist (env : Env D) (w : World D) (els : List VALUE) :
    ∀ o ∈ visited_of env w els, o ∈ els ∧ (type_id_of env w o).isSome := by
  intro o ho
  unfold visited_of at ho
  exact ⟨(List.takeWhile_sublist _).subset ho,
    List.mem_takeWhile_imp (p := fun el => (type_id_of env w el).isSome) ho⟩

theorem visited_mem (env : Env D) (w : World D) :
    ∀ o ∈ visited env w, o ∈ objects_of w ∧ (type_id_of env w o).isSome := by
  intro o ho
  unfold visited at ho
  split_ifs at ho
  · exact visited_of_sublist env w _ o ho
  · simp at ho

/-- Every object is visited when the length of `@objects` and every
`@type_id` is an `int`. -/
theorem visited_eq_all (env : Env D) (w : World D)
    (hlen : ((objects_of w).length : Int) ≤ INT_MAX)
    (hall : ∀ el ∈ objects_of w, (type_id_of env w el).isSome) :
    visited env w = objects_of w := by
  unfold visited visited_of
  rw [if_pos hlen, List.takeWhile_eq_self_iff]
  intro el hel
  simpa using hall el hel

/-! ## Helper lemmas: shapes -/

theorem vertex_attributes_congr (env : Env D) (w v : World D) (el : VALUE)
    (h : ∀ o n, n ≠ "@data" → rb_iv_get v o n = rb_iv_get w o n)
    (i : Nat) (hi : i = 1 ∨ i = 2 ∨ i = 3 ∨ i = 4) :
    vertex_attributes env v el i = vertex_attributes env w el i := by
  have hr := fun o => h o "@r" (by decide)
  have hg := fun o => h o "@g" (by decide)
  have hb := fun o => h o "@b" (by decide)
  have ha := fun o => h o "@a" (by decide)
  unfold vertex_attributes
  rcases hi with rfl | rfl | rfl | rfl
  · rw [h el ("@c" ++ toString 1) (by decide), h el ("@x" ++ toString 1) (by decide),
      h el ("@y" ++ toString 1) (by decide)]
    simp only [hr, hg, hb, ha]
  · rw [h el ("@c" ++ toString 2) (by decide), h el ("@x" ++ toString 2) (by decide),
      h el ("@y" ++ toString 2) (by decide)]
    simp only [hr, hg, hb, ha]
  · rw [h el ("@c" ++ toString 3) (by decide), h el ("@x" ++ toString 3) (by decide),
      h el ("@y" ++ toString 3) (by decide)]
    simp only [hr, hg, hb, ha]
  · rw [h el ("@c" ++ toString 4) (by decide), h el ("@x" ++ toString 4) (by decide),
      h el ("@y" ++ toString 4) (by decide)]
    simp only [hr, hg, hb, ha]

theorem shape_call_congr (env : Env D) (w v : World D) (el : VALUE)
    (h : ∀ o n, n ≠ "@data" → rb_iv_get v o n = rb_iv_get w o n) :
    shape_call env v el = shape_call env w el := by
  have ht : type_id_of env v el = type_id_of env w el := by
    unfold type_id_of
    rw [h el "@type_id" (by decide)]
  have hv := vertex_attributes_congr env w v el h
  have e3 : (List.range' 1 3).flatMap (vertex_attributes env v el) =
      (List.range' 1 3).flatMap (vertex_attributes env w el) := by
    show [1, 2, 3].flatMap _ = [1, 2, 3].flatMap _
    simp only [List.flatMap_cons, List.flatMap_nil, hv 1 (by decide), hv 2 (by decide),
      hv 3 (by decide)]
  have e4 : (List.range' 1 4).flatMap (vertex_attributes env v el) =
      (List.range' 1 4).flatMap (vertex_attributes env w el) := by
    show [1, 2, 3, 4].flatMap _ = [1, 2, 3, 4].flatMap _
    simp only [List.flatMap_cons, List.flatMap_nil, hv 1 (by decide), hv 2 (by decide),
      hv 3 (by decide), hv 4 (by decide)]
  unfold shape_call
  rw [ht, e3, e4]

/-- The call the `switch` logs for a triangle. -/
theorem render_switch_triangle (env : Env D) (el : VALUE) (w : World D) :
    render_switch env el 1 w =
      { w with log := w.log ++
        [Event.S2D_DrawTriangle ((List.range' 1 3).flatMap (vertex_attributes env w el))] } := by
  unfold render_switch
  simp only [TRIANGLE, if_true]
  rfl

/-- The call the `switch` logs for a quad. -/
theorem render_switch_quad (env : Env D) (el : VALUE) (w : World D) :
    render_switch env el 2 w =
      { w with log := w.log ++
        [Event.S2D_DrawQuad ((List.range' 1 4).flatMap (vertex_attributes env w el))] } := by
  unfold render_switch
  have h1 : ¬ ((2 : Int) = 1) := by decide
  simp only [TRIANGLE, QUAD, h1, if_true, if_false]
  rfl

theorem render_switch_shape (env : Env D) (el : VALUE) (t : Int) (w : World D)
    (h1 : t ≠ 1) (h2 : t ≠ 2) :
    (emitted w (render_switch env el t w)).filter Event.is_shape = [] := by
  unfold emitted render_switch
  simp only [S2D_DrawTriangle, S2D_DrawQuad, S2D_DrawImage, S2D_DrawText, store_img_x,
    store_img_y, store_txt_x, store_txt_y, init_image, init_text, S2D_CreateImage,
    S2D_CreateText, rb_iv_set, with_ivar, rb_iv_get, Data_Wrap_Struct, TRIANGLE, QUAD, IMAGE,
    TEXT]
  split_ifs <;> simp_all [Event.is_shape]

theorem step_shape (env : Env D) (el : VALUE) (w : World D) :
    (emitted w (step env el w)).filter Event.is_shape = (shape_call env w el).toList := by
  cases h : type_id_of env w el with
  | none => simp [step_none env el w h, emitted_self, shape_call, h]
  | some t =>
    rw [step_some env el w t h]
    by_cases h1 : t = 1
    · subst h1
      rw [render_switch_triangle]
      simp [emitted, shape_call, h, Event.is_shape]
    · by_cases h2 : t = 2
      · subst h2
        rw [render_switch_quad]
        simp [emitted, shape_call, h, Event.is_shape]
      · rw [render_switch_shape env el t w h1 h2]
        simp [shape_call, h, h1, h2]

theorem step_all_shape (env : Env D) (els : List VALUE) (w : World D) :
    (emitted w (step_all env els w)).filter Event.is_shape =
      els.filterMap (shape_call env w) := by
  induction els generalizing w with
  | nil => simp [step_all_nil, emitted]
  | cons el els ih =>
    rw [step_all_cons]
    have g1 := (step_log env el w).1
    have h1 := (step_all_log env els (step env el w)).1
    obtain ⟨_, k2⟩ := emitted_trans w _ _ g1 h1
    rw [k2, List.filter_append, step_shape, ih]
    have hc : shape_call env (step env el w) = shape_call env w := by
      funext o
      apply shape_call_congr
      intro o' n hn
      rw [step_ivars]
      simp [hn]
    rw [hc, List.filterMap_cons]
    cases shape_call env w el <;> simp

/-! ## Helper lemmas: callbacks -/

/-- A call of a Ruby method other than `count` logs the call and hands the
heap to the method; nothing else changes. -/
theorem rb_funcall_callback (env : Env D) (recv : VALUE) (mid : String) (args : List VALUE)
    (w : World D) (h : mid ≠ "count") :
    (rb_funcall env recv mid args w).2 =
      { w with
        log := w.log ++ [Event.rb_funcall recv mid args]
        heap := (env.method recv mid args w.heap).2 } := by
  simp [rb_funcall, h]

theorem on_key_eq (env : Env D) (k : String) (w : World D) :
    on_key env k w =
      { w with
        log := w.log ++ [Event.rb_funcall w.self "key_callback" [VALUE.str k]]
        heap := (env.method w.self "key_callback" [VALUE.str k] w.heap).2 } := by
  unfold on_key
  rw [rb_funcall_callback _ _ _ _ _ (by decide)]
  rfl

theorem on_key_down_eq (env : Env D) (k : String) (w : World D) :
    on_key_down env k w =
      { w with
        log := w.log ++ [Event.rb_funcall w.self "key_down_callback" [VALUE.str k]]
        heap := (env.method w.self "key_down_callback" [VALUE.str k] w.heap).2 } := by
  unfold on_key_down
  rw [rb_funcall_callback _ _ _ _ _ (by decide)]
  rfl

theorem on_controller_eq (env : Env D) (which : Int) (is_axis : Bool) (axis val : Int)
    (is_btn : Bool) (btn : Int) (w : World D) :
    on_controller env which is_axis axis val is_btn btn w =
      { w with
        log := w.log ++ [Event.rb_funcall w.self "controller_callback"
          [if is_axis then VALUE.Qtrue else VALUE.Qfalse, VALUE.fixnum axis, VALUE.fixnum val,
           if is_btn then VALUE.Qtrue else VALUE.Qfalse, VALUE.fixnum btn]]
        heap := (env.method w.self "controller_callback"
          [if is_axis then VALUE.Qtrue else VALUE.Qfalse, VALUE.fixnum axis, VALUE.fixnum val,
           if is_btn then VALUE.Qtrue else VALUE.Qfalse, VALUE.fixnum btn] w.heap).2 } := by
  unfold on_controller
  rw [rb_funcall_callback _ _ _ _ _ (by decide)]
  rfl

theorem update_eq (env : Env D) (w : World D) :
    update env w =
      { w with
        log := w.log ++
          [Event.rb_iv_set w.self "@mouse_x" (VALUE.fixnum w.window.mouse_x),
           Event.rb_iv_set w.self "@mouse_y" (VALUE.fixnum w.window.mouse_y),
           Event.rb_iv_set w.self "@fps" (VALUE.fixnum w.window.fps),
           Event.rb_funcall w.self "update_callback" []]
        heap := (env.method w.self "update_callback" []
          { w.heap with ivars := published w }).2 } := by
  have e : (rb_iv_set (rb_iv_set (rb_iv_set w w.self "@mouse_x" (INT2NUM w.window.mouse_x))
      w.self "@mouse_y" (INT2NUM w.window.mouse_y)) w.self "@fps" (INT2NUM w.window.fps)) =
      { w with
        heap := { w.heap with ivars := published w }
        log := w.log ++
          [Event.rb_iv_set w.self "@mouse_x" (VALUE.fixnum w.window.mouse_x),
           Event.rb_iv_set w.self "@mouse_y" (VALUE.fixnum w.window.mouse_y),
           Event.rb_iv_set w.self "@fps" (VALUE.fixnum w.window.fps)] } := by
    unfold rb_iv_set with_ivar published INT2NUM
    simp only [List.append_assoc, List.cons_append, List.nil_append]
    congr 2
    funext o n
    have d1 : ¬ ("@mouse_x" = "@mouse_y") := by decide
    have d2 : ¬ ("@mouse_x" = "@fps") := by decide
    have d3 : ¬ ("@mouse_y" = "@fps") := by decide
    have d4 : ¬ ("@mouse_y" = "@mouse_x") := by decide
    split_ifs <;> simp_all
  show (rb_funcall env
      (rb_iv_set (rb_iv_set (rb_iv_set w w.self "@mouse_x" (INT2NUM w.window.mouse_x))
        w.self "@mouse_y" (INT2NUM w.window.mouse_y)) w.self "@fps"
        (INT2NUM w.window.fps)).self "update_callback" []
      (rb_iv_set (rb_iv_set (rb_iv_set w w.self "@mouse_x" (INT2NUM w.window.mouse_x))
        w.self "@mouse_y" (INT2NUM w.window.mouse_y)) w.self "@fps"
        (INT2NUM w.window.fps))).2 = _
  rw [e, rb_funcall_callback _ _ _ _ _ (by decide)]
  simp

/-! ## Helper lemmas: the Simple 2D loop -/

theorem same_setup_refl (a : S2D_Window D) : same_setup a a :=
  ⟨rfl, rfl, rfl, rfl, rfl, rfl, rfl, rfl, rfl, rfl, rfl⟩

theorem same_setup_trans (a b c : S2D_Window D) (h1 : same_setup a b)
    (h2 : same_setup b c) : same_setup a c := by
  obtain ⟨a1, a2, a3, a4, a5, a6, a7, a8, a9, a10, a11⟩ := h1
  obtain ⟨b1, b2, b3, b4, b5, b6, b7, b8, b9, b10, b11⟩ := h2
  exact ⟨a1.trans b1, a2.trans b2, a3.trans b3, a4.trans b4, a5.trans b5, a6.trans b6,
    a7.trans b7, a8.trans b8, a9.trans b9, a10.trans b10, a11.trans b11⟩

theorem hooked_of_same_setup (s : VALUE) (w v : World D) (h : hooked s w)
    (hs : v.self = w.self) (hw : same_setup v.window w.window) : hooked s v := by
  obtain ⟨h1, h2, h3, h4, h5, h6⟩ := h
  obtain ⟨_, _, _, _, _, _, a7, a8, a9, a10, a11⟩ := hw
  exact ⟨hs.trans h1, a7.trans h2, a8.trans h3, a9.trans h4, a10.trans h5, a11.trans h6⟩


theorem foldl_bind_raised {α : Type} (f : α → World D → Outcome D) (l : List α)
    (o : Outcome D) (h : o.raised = true) :
    l.foldl (fun o a => o.bind (f a)) o = o := by
  induction l with
  | nil => rfl
  | cons a l ih =>
    simp only [List.foldl_cons]
    have hb : o.bind (f a) = o := by
      unfold Outcome.bind
      rw [if_pos h]
    rw [hb]
    exact ih

/-- One step of the Simple 2D loop on a window that belongs to `s`. -/
theorem dispatch_spec (env : Env D) (s : VALUE) (ev : NativeEvent) (w : World D)
    (h : hooked s w) :
    (S2D_dispatch env ev w).world.self = w.self ∧
    same_setup (S2D_dispatch env ev w).world.window w.window ∧
    (S2D_dispatch env ev w).world.registered_atexit = w.registered_atexit ∧
    (S2D_dispatch env ev w).world.log =
      w.log ++ emitted w (S2D_dispatch env ev w).world ∧
    (emitted w (S2D_dispatch env ev w).world).filter Event.is_callback =
      (expected_call s ev).toList ∧
    (ev ≠ NativeEvent.render → (S2D_dispatch env ev w).raised = false) := by
  obtain ⟨h1, h2, h3, h4, h5, h6⟩ := h
  cases ev with
  | key k =>
    simp only [S2D_dispatch, h2, KeyFn.call, on_key_eq, emitted, h1, expected_call,
      Outcome.returned]
    simp [same_setup_refl, Event.is_callback]
  | key_down k =>
    simp only [S2D_dispatch, h3, KeyFn.call, on_key_down_eq, emitted, h1, expected_call,
      Outcome.returned]
    simp [same_setup_refl, Event.is_callback]
  | controller which is_axis axis val is_btn btn =>
    simp only [S2D_dispatch, h4, ControllerFn.call, on_controller_eq, emitted, h1,
      expected_call, Outcome.returned]
    simp [same_setup_refl, Event.is_callback]
  | input mx my fps =>
    simp only [S2D_dispatch, emitted, expected_call, Outcome.returned]
    simp [same_setup]
  | update =>
    simp only [S2D_dispatch, h5, FrameFn.call, update_eq, emitted, h1, expected_call,
      Outcome.returned]
    simp [same_setup_refl, Event.is_callback]
  | render =>
    simp only [S2D_dispatch, h6, FrameFn.call, expected_call]
    obtain ⟨r1, _, r3, r4, _, r6⟩ := render_frame env w
    exact ⟨r1, r3, r4, (render_log env w).1, r6, fun hh => absurd rfl hh⟩

/-- The Simple 2D loop over a list of events on a window that belongs to
`s`: the window still belongs to `s` afterwards, what `ruby2d_show` set up
is untouched, and the callbacks called are the expected ones for the events
handled, in order; the events handled are all of them when no callback
raised, and no callback raises when there is no render tick. -/
theorem dispatch_all_spec (env : Env D) (s : VALUE) (events : List NativeEvent) (w : World D)
    (h : hooked s w) :
    hooked s (events.foldl (fun o ev => o.bind (S2D_dispatch env ev))
      (Outcome.returned w)).world ∧
    same_setup (events.foldl (fun o ev => o.bind (S2D_dispatch env ev))
      (Outcome.returned w)).world.window w.window ∧
    (events.foldl (fun o ev => o.bind (S2D_dispatch env ev))
      (Outcome.returned w)).world.registered_atexit = w.registered_atexit ∧
    (events.foldl (fun o ev => o.bind (S2D_dispatch env ev))
      (Outcome.returned w)).world.log =
      w.log ++ emitted w (events.foldl (fun o ev => o.bind (S2D_dispatch env ev))
        (Outcome.returned w)).world ∧
    (∃ handled : List NativeEvent, handled <+: events ∧
      (emitted w (events.foldl (fun o ev => o.bind (S2D_dispatch env ev))
        (Outcome.returned w)).world).filter Event.is_callback =
        handled.filterMap (expected_call s) ∧
      ((events.foldl (fun o ev => o.bind (S2D_dispatch env ev))
        (Outcome.returned w)).raised = false → handled = events)) ∧
    ((∀ ev ∈ events, ev ≠ NativeEvent.render) →
      (events.foldl (fun o ev => o.bind (S2D_dispatch env ev))
        (Outcome.returned w)).raised = false) := by
  induction events generalizing w with
  | nil =>
    refine ⟨h, same_setup_refl _, rfl, by simp [emitted, Outcome.returned], ?_, fun _ => rfl⟩
    exact ⟨[], List.prefix_refl _, by simp [emitted, Outcome.returned], fun _ => rfl⟩
  | cons ev events ih =>
    simp only [List.foldl_cons, bind_returned]
    obtain ⟨d1, d2, d3, d4, d5, d6⟩ := dispatch_spec env s ev w h
    have hk : hooked s (S2D_dispatch env ev w).world := hooked_of_same_setup s w _ h d1 d2
    by_cases hr : (S2D_dispatch env ev w).raised = true
    · rw [foldl_bind_raised _ _ _ hr]
      refine ⟨hk, d2, d3, d4, ?_, ?_⟩
      · refine ⟨[ev], ?_, ?_, ?_⟩
        · exact List.prefix_iff_eq_append.2 (by simp)
        · rw [d5]
          cases he : expected_call s ev <;> simp [he]
        · intro hf
          rw [hr] at hf
          exact absurd hf (by decide)
      · intro hall
        have := d6 (hall ev (List.mem_cons_self _ _))
        rw [hr] at this
        exact absurd this (by decide)
    · have hr2 : (S2D_dispatch env ev w).raised = false := by
        cases hh : (S2D_dispatch env ev w).raised
        · rfl
        · exact absurd hh hr
      have hret : S2D_dispatch env ev w = Outcome.returned (S2D_dispatch env ev w).world := by
        cases ho : S2D_dispatch env ev w with
        | mk world raised =>
          rw [ho] at hr2
          simp only at hr2
          subst hr2
          rfl
      rw [hret]
      obtain ⟨i1, i2, i3, i4, ⟨handled, p1, p2, p3⟩, i6⟩ := ih (S2D_dispatch env ev w).world hk
      obtain ⟨k1, k2⟩ := emitted_trans w _ _ d4 i4
      refine ⟨i1, same_setup_trans _ _ _ i2 d2, i3.trans d3, k1, ?_, ?_⟩
      · refine ⟨ev :: handled, ?_, ?_, ?_⟩
        · obtain ⟨t, ht⟩ := p1
          exact ⟨t, by simp [ht]⟩
        · rw [k2, List.filter_append, d5, p2, List.filterMap_cons]
          cases he : expected_call s ev <;> simp
        · intro hf
          rw [p3 hf]
      · intro hall
        exact i6 (fun e he => hall e (List.mem_cons_of_mem _ he))

/-! ## Helper lemmas: `ruby2d_show` -/

theorem flag_chain (env : Env D) (w : World D) (s : VALUE) :
    (if rb_iv_get w s "@highdpi" = VALUE.Qtrue then
      Int.lor (if rb_iv_get w s "@fullscreen" = VALUE.Qtrue then
        Int.lor (if rb_iv_get w s "@borderless" = VALUE.Qtrue then
          Int.lor (if rb_iv_get w s "@resizable" = VALUE.Qtrue then
            Int.lor 0 env.S2D_RESIZABLE else 0) env.S2D_BORDERLESS
          else (if rb_iv_get w s "@resizable" = VALUE.Qtrue then
            Int.lor 0 env.S2D_RESIZABLE else 0)) env.S2D_FULLSCREEN
        else (if rb_iv_get w s "@borderless" = VALUE.Qtrue then
          Int.lor (if rb_iv_get w s "@resizable" = VALUE.Qtrue then
            Int.lor 0 env.S2D_RESIZABLE else 0) env.S2D_BORDERLESS
          else (if rb_iv_get w s "@resizable" = VALUE.Qtrue then
            Int.lor 0 env.S2D_RESIZABLE else 0))) env.S2D_HIGHDPI
      else (if rb_iv_get w s "@fullscreen" = VALUE.Qtrue then
        Int.lor (if rb_iv_get w s "@borderless" = VALUE.Qtrue then
          Int.lor (if rb_iv_get w s "@resizable" = VALUE.Qtrue then
            Int.lor 0 env.S2D_RESIZABLE else 0) env.S2D_BORDERLESS
          else (if rb_iv_get w s "@resizable" = VALUE.Qtrue then
            Int.lor 0 env.S2D_RESIZABLE else 0)) env.S2D_FULLSCREEN
        else (if rb_iv_get w s "@borderless" = VALUE.Qtrue then
          Int.lor (if rb_iv_get w s "@resizable" = VALUE.Qtrue then
            Int.lor 0 env.S2D_RESIZABLE else 0) env.S2D_BORDERLESS
          else (if rb_iv_get w s "@resizable" = VALUE.Qtrue then
            Int.lor 0 env.S2D_RESIZABLE else 0)))) = expected_flags env w s := by
  unfold expected_flags true_flags
  by_cases h1 : rb_iv_get w s "@resizable" = VALUE.Qtrue <;>
  by_cases h2 : rb_iv_get w s "@borderless" = VALUE.Qtrue <;>
  by_cases h3 : rb_iv_get w s "@fullscreen" = VALUE.Qtrue <;>
  by_cases h4 : rb_iv_get w s "@highdpi" = VALUE.Qtrue <;>
  simp [h1, h2, h3, h4, List.filter]

/-- The four conversions of `ruby2d_show`, one by one. -/
theorem window_sizes_some (env : Env D) (w : World D) (s : VALUE) (width height vw vh : Int) :
    window_sizes env w s = some (width, height, vw, vh) ↔
      NUM2INT env (rb_iv_get w s "@width") = some width ∧
      NUM2INT env (rb_iv_get w s "@height") = some height ∧
      (if rb_iv_get w s "@viewport_width" = VALUE.Qnil then some width
        else NUM2INT env (rb_iv_get w s "@viewport_width")) = some vw ∧
      (if rb_iv_get w s "@viewport_height" = VALUE.Qnil then some height
        else NUM2INT env (rb_iv_get w s "@viewport_height")) = some vh := by
  unfold window_sizes expected_viewport_width expected_viewport_height
  cases h1 : NUM2INT env (rb_iv_get w s "@width") <;>
  cases h2 : NUM2INT env (rb_iv_get w s "@height") <;>
  by_cases h3 : rb_iv_get w s "@viewport_width" = VALUE.Qnil <;>
  by_cases h4 : rb_iv_get w s "@viewport_height" = VALUE.Qnil <;>
  simp only [h1, h2, h3, h4, if_true, if_false] <;>
  (try cases h5 : NUM2INT env (rb_iv_get w s "@viewport_width")) <;>
  (try cases h6 : NUM2INT env (rb_iv_get w s "@viewport_height")) <;>
  simp <;> omega

/-- With the four sizes at hand `ruby2d_show(s)` runs the Simple 2D loop from
`show_entry` and registers `free_window` if the loop returns. -/
theorem show_returns (env : Env D) (s : VALUE) (events : List NativeEvent) (w : World D)
    (width height vw vh : Int)
    (h : window_sizes env w s = some (width, height, vw, vh)) :
    ruby2d_show env s events w =
      (events.foldl (fun o ev => o.bind (S2D_dispatch env ev))
        (Outcome.returned (show_entry env w s width height vw vh))).bind
        (fun u => Outcome.returned
          { u with registered_atexit := u.registered_atexit ++ [ExitFn.free_window] }) := by
  obtain ⟨h1, h2, h3, h4⟩ := (window_sizes_some env w s width height vw vh).1 h
  have hf := flag_chain env w s
  unfold ruby2d_show
  simp only [rb_iv_get] at h1 h2 h3 h4 hf ⊢
  simp only [h1, h2, h3, h4, hf]
  unfold S2D_Show
  congr 2
  simp [show_entry, S2D_CreateWindow, store_window, WindowStore.apply, rb_iv_get]

/-- Without them it raises before anything is done. -/
theorem show_raises (env : Env D) (s : VALUE) (events : List NativeEvent) (w : World D)
    (h : window_sizes env w s = none) :
    ruby2d_show env s events w = Outcome.raise { w with self := s } := by
  unfold window_sizes expected_viewport_width expected_viewport_height at h
  unfold ruby2d_show
  simp only [rb_iv_get] at h ⊢
  cases h1 : NUM2INT env (w.heap.ivars s "@width") with
  | none => simp only [h1]
  | some width =>
    cases h2 : NUM2INT env (w.heap.ivars s "@height") with
    | none => simp only [h1, h2]
    | some height =>
      simp only [h1, h2] at h ⊢
      by_cases h3 : w.heap.ivars s "@viewport_width" = VALUE.Qnil
      · simp only [h3, if_true] at h ⊢
        by_cases h4 : w.heap.ivars s "@viewport_height" = VALUE.Qnil
        · simp [h4] at h
        · simp only [h4, if_false] at h ⊢
          cases h6 : NUM2INT env (w.heap.ivars s "@viewport_height") with
          | none => rfl
          | some vh => simp [h6] at h
      · simp only [h3, if_false] at h ⊢
        cases h5 : NUM2INT env (w.heap.ivars s "@viewport_width") with
        | none => rfl
        | some vw =>
          simp only [h5] at h ⊢
          by_cases h4 : w.heap.ivars s "@viewport_height" = VALUE.Qnil
          · simp [h4] at h
          · simp only [h4, if_false] at h ⊢
            cases h6 : NUM2INT env (w.heap.ivars s "@viewport_height") with
            | none => rfl
            | some vh => simp [h6] at h

theorem show_entry_hooked (env : Env D) (w : World D) (s : VALUE) (width height vw vh : Int) :
    hooked s (show_entry env w s width height vw vh) :=
  ⟨rfl, rfl, rfl, rfl, rfl, rfl⟩

theorem int_testBit_zero (k : Nat) : Int.testBit 0 k = false := by
  show Nat.testBit 0 k = false
  simp

/-- Bit by bit, the expected flags are the OR of the four constants, each
gated by its own attribute. -/
theorem expected_flags_testBit (env : Env D) (w : World D) (s : VALUE) (k : Nat) :
    (expected_flags env w s).testBit k =
      ((decide (rb_iv_get w s "@resizable" = VALUE.Qtrue) && env.S2D_RESIZABLE.testBit k) ||
       (decide (rb_iv_get w s "@borderless" = VALUE.Qtrue) && env.S2D_BORDERLESS.testBit k) ||
       (decide (rb_iv_get w s "@fullscreen" = VALUE.Qtrue) && env.S2D_FULLSCREEN.testBit k) ||
       (decide (rb_iv_get w s "@highdpi" = VALUE.Qtrue) && env.S2D_HIGHDPI.testBit k)) := by
  unfold expected_flags true_flags
  by_cases h1 : rb_iv_get w s "@resizable" = VALUE.Qtrue <;>
  by_cases h2 : rb_iv_get w s "@borderless" = VALUE.Qtrue <;>
  by_cases h3 : rb_iv_get w s "@fullscreen" = VALUE.Qtrue <;>
  by_cases h4 : rb_iv_get w s "@highdpi" = VALUE.Qtrue <;>
  simp [h1, h2, h3, h4, List.filter, Int.testBit_lor, int_testBit_zero]


/-! ## Helper lemmas: native handles -/

/-- An iteration returns with the result of the `switch` for the type of the
element. -/
theorem render_object_some (env : Env D) (el : VALUE) (w : World D) (t : Int)
    (h : type_id_of env w el = some t) :
    render_object env el w = Outcome.returned (render_switch env el t w) := by
  rw [render_object_eq, h, step_some env el w t h]
  rfl

/-- C2. Shape attribute pass-through.  The iteration for a triangle returns
after one call of `S2D_DrawTriangle` with the attributes of vertex 1, then
2, then 3, each vertex contributing `@x_i, @y_i` and the `@r, @g, @b, @a`
of `@c_i` in that order: 18 arguments.  The iteration for a quad does the
same with `S2D_DrawQuad` for the vertices 1 to 4: 24 arguments.  In a whole
`render` the triangle and quad calls are these argument lists, read from
the attributes the objects had when `render` began, for the objects visited,
in list order; these are all objects when the length of `@objects` and
every `@type_id` is an `int`. -/
theorem shape_attribute_pass_through (env : Env D) (w : World D) :
    (∀ (el : VALUE) (v : World D), type_id_of env v el = some 1 →
      render_object env el v = Outcome.returned
        { v with log := v.log ++
          [Event.S2D_DrawTriangle
            ((List.range' 1 3).flatMap (vertex_attributes env v el))] }) ∧
    (∀ (el : VALUE) (v : World D), type_id_of env v el = some 2 →
      render_object env el v = Outcome.returned
        { v with log := v.log ++
          [Event.S2D_DrawQuad ((List.range' 1 4).flatMap (vertex_attributes env v el))] }) ∧
    (∀ (el : VALUE) (v : World D),
      ((List.range' 1 3).flatMap (vertex_attributes env v el)).length = 18 ∧
      ((List.range' 1 4).flatMap (vertex_attributes env v el)).length = 24) ∧
    (emitted w (render env w).world).filter Event.is_shape =
      (visited env w).filterMap (shape_call env w) ∧
    (((objects_of w).length : Int) ≤ INT_MAX →
      (∀ el ∈ objects_of w, (type_id_of env w el).isSome) →
      (emitted w (render env w).world).filter Event.is_shape =
        (objects_of w).filterMap (shape_call env w)) := by
  have hagg : (emitted w (render env w).world).filter Event.is_shape =
      (visited env w).filterMap (shape_call env w) := by
    rw [(render_log env w).2.1, List.filter_append, (loop_entry_log env w).2,
      (render_eq env w).1, step_all_shape]
    have hc : shape_call env (loop_entry env w) = shape_call env w := by
      funext o
      apply shape_call_congr
      intro o' n _
      rfl
    rw [hc]
    simp [Event.is_shape]
  refine ⟨?_, ?_, fun el v => ⟨rfl, rfl⟩, hagg, ?_⟩
  · intro el v h
    rw [render_object_some env el v 1 h, render_switch_triangle]
  · intro el v h
    rw [render_object_some env el v 2 h, render_switch_quad]
  · intro hlen hconv
    rw [hagg, visited_eq_all env w hlen hconv]

/-- C2, instance: the triangle and the quad of the demo world, and a whole
`render` of the demo window. -/
theorem shape_attribute_pass_through_witness :
    (type_id_of demoEnv demoWorld (VALUE.obj 10) = some 1 ∧
      render_object demoEnv (VALUE.obj 10) demoWorld = Outcome.returned
        { demoWorld with log := demoWorld.log ++
          [Event.S2D_DrawTriangle
            ((List.range' 1 3).flatMap
              (vertex_attributes demoEnv demoWorld (VALUE.obj 10)))] }) ∧
    (type_id_of demoEnv demoWorld (VALUE.obj 11) = some 2 ∧
      render_object demoEnv (VALUE.obj 11) demoWorld = Outcome.returned
        { demoWorld with log := demoWorld.log ++
          [Event.S2D_DrawQuad
            ((List.range' 1 4).flatMap
              (vertex_attributes demoEnv demoWorld (VALUE.obj 11)))] }) ∧
    ((((objects_of demoWindowWorld).length : Int) ≤ INT_MAX ∧
      ∀ el ∈ objects_of demoWindowWorld, (type_id_of demoEnv demoWindowWorld el).isSome) ∧
     (emitted demoWindowWorld (render demoEnv demoWindowWorld).world).filter Event.is_shape =
      (objects_of demoWindowWorld).filterMap (shape_call demoEnv demoWindowWorld)) :=
  ⟨⟨by decide,
    (shape_attribute_pass_through demoEnv demoWorld).1 (VALUE.obj 10) demoWorld (by decide)⟩,
   ⟨by decide,
    (shape_attribute_pass_through demoEnv demoWorld).2.1 (VALUE.obj 11) demoWorld (by decide)⟩,
   ⟨⟨by decide, by decide⟩,
    (shape_attribute_pass_through demoEnv demoWindowWorld).2.2.2.2 (by decide) (by decide)⟩⟩

/-- C6. Controller input translation.  `on_controller` calls
`controller_callback` on the window once, with the five arguments `is_axis`
as `true` or `false`, `axis`, `val`, `is_btn` as `true` or `false`, `btn`,
in this order, each the Ruby value of the native one; the controller index
`which` has no influence on the result. -/
theorem controller_input_translation (env : Env D) (which : Int) (is_axis : Bool)
    (axis val : Int) (is_btn : Bool) (btn : Int) (w : World D) :
    on_controller env which is_axis axis val is_btn btn w =
      { w with
        log := w.log ++ [Event.rb_funcall w.self "controller_callback"
          [if is_axis then VALUE.Qtrue else VALUE.Qfalse, VALUE.fixnum axis, VALUE.fixnum val,
           if is_btn then VALUE.Qtrue else VALUE.Qfalse, VALUE.fixnum btn]]
        heap := (env.method w.self "controller_callback"
          [if is_axis then VALUE.Qtrue else VALUE.Qfalse, VALUE.fixnum axis, VALUE.fixnum val,
           if is_btn then VALUE.Qtrue else VALUE.Qfalse, VALUE.fixnum btn] w.heap).2 } ∧
    (∀ other : Int, on_controller env other is_axis axis val is_btn btn w =
      on_controller env which is_axis axis val is_btn btn w) := by
  refine ⟨on_controller_eq env which is_axis axis val is_btn btn w, ?_⟩
  intro other
  rw [on_controller_eq, on_controller_eq]

/-- C8. Per-frame state publication.  `update` assigns `@mouse_x`,
`@mouse_y` and `@fps` of the window, in this order, the values `mouse.x`,
`mouse.y` and `fps` of the native window, and then calls `update_callback`
on the window once, without arguments; the Ruby heap the method runs on is
the heap `update` was entered with except for these three variables; no
other instance variable is changed by `update` itself, and the native side
is left as it was. -/
theorem update_publishes_frame_state (env : Env D) (w : World D) :
    update env w =
      { w with
        log := w.log ++
          [Event.rb_iv_set w.self "@mouse_x" (VALUE.fixnum w.window.mouse_x),
           Event.rb_iv_set w.self "@mouse_y" (VALUE.fixnum w.window.mouse_y),
           Event.rb_iv_set w.self "@fps" (VALUE.fixnum w.window.fps),
           Event.rb_funcall w.self "update_callback" []]
        heap := (env.method w.self "update_callback" []
          { w.heap with ivars := published w }).2 } ∧
    published w w.self "@mouse_x" = VALUE.fixnum w.window.mouse_x ∧
    published w w.self "@mouse_y" = VALUE.fixnum w.window.mouse_y ∧
    published w w.self "@fps" = VALUE.fixnum w.window.fps ∧
    (∀ (o : VALUE) (n : String),
      ¬ (o = w.self ∧ (n = "@mouse_x" ∨ n = "@mouse_y" ∨ n = "@fps")) →
      published w o n = rb_iv_get w o n) := by
  have d1 : ¬ ("@mouse_y" = "@mouse_x") := by decide
  have d2 : ¬ ("@fps" = "@mouse_x") := by decide
  have d3 : ¬ ("@fps" = "@mouse_y") := by decide
  refine ⟨update_eq env w, ?_, ?_, ?_, ?_⟩
  · simp [published]
  · simp [published, d1]
  · simp [published, d2, d3]
  · intro o n h
    unfold published rb_iv_get
    split_ifs with h1 h2 h3
    · exact absurd ⟨h1.1, Or.inl h1.2⟩ h
    · exact absurd ⟨h2.1, Or.inr (Or.inl h2.2)⟩ h
    · exact absurd ⟨h3.1, Or.inr (Or.inr h3.2)⟩ h
    · rfl

/-- C8, instance: `update` leaves `@title` of the demo window alone. -/
theorem update_publishes_frame_state_witness :
    ¬ (VALUE.obj 0 = demoWindowWorld.self ∧
      ("@title" = "@mouse_x" ∨ "@title" = "@mouse_y" ∨ "@title" = "@fps")) ∧
    published demoWindowWorld (VALUE.obj 0) "@title" =
      rb_iv_get demoWindowWorld (VALUE.obj 0) "@title" :=
  ⟨by decide,
   (update_publishes_frame_state demoEnv demoWindowWorld).2.2.2.2 (VALUE.obj 0) "@title"
     (by decide)⟩

/-! ## The claims about `ruby2d_show` -/

/-- After `show_entry` the loop and the registration of `free_window` leave
what `ruby2d_show` set up as it is. -/
theorem show_after_entry (env : Env D) (s : VALUE) (events : List NativeEvent) (w : World D)
    (width height vw vh : Int)
    (h : window_sizes env w s = some (width, height, vw, vh)) :
    hooked s (ruby2d_show env s events w).world ∧
    same_setup (ruby2d_show env s events w).world.window
      (show_entry env w s width height vw vh).window ∧
    (ruby2d_show env s events w).world.log =
      (show_entry env w s width height vw vh).log ++
        emitted (show_entry env w s width height vw vh) (ruby2d_show env s events w).world ∧
    (∃ handled : List NativeEvent, handled <+: events ∧
      (emitted (show_entry env w s width height vw vh)
        (ruby2d_show env s events w).world).filter Event.is_callback =
        handled.filterMap (expected_call s) ∧
      ((ruby2d_show env s events w).raised = false → handled = events)) ∧
    ((∀ ev ∈ events, ev ≠ NativeEvent.render) →
      (ruby2d_show env s events w).raised = false) := by
  obtain ⟨d1, d2, _, d4, ⟨handled, p1, p2, p3⟩, d6⟩ :=
    dispatch_all_spec env s events (show_entry env w s width height vw vh)
      (show_entry_hooked env w s width height vw vh)
  rw [show_returns env s events w width height vw vh h]
  generalize events.foldl (fun o ev => o.bind (S2D_dispatch env ev))
    (Outcome.returned (show_entry env w s width height vw vh)) = oc at d1 d2 d4 p2 p3 d6
  unfold Outcome.bind
  by_cases hr : oc.raised = true
  · rw [if_pos hr]
    refine ⟨d1, d2, d4, ⟨handled, p1, p2, p3⟩, d6⟩
  · rw [if_neg hr]
    refine ⟨d1, d2, d4, ⟨handled, p1, p2, fun _ => p3 (by simpa using hr)⟩, fun _ => rfl⟩

/-- C3. Window flag assembly.  When the four sizes of the window convert,
`ruby2d_show(s)` calls `S2D_CreateWindow` with the flags value
`expected_flags`: the bitwise OR, starting from 0, of those of
`S2D_RESIZABLE`, `S2D_BORDERLESS`, `S2D_FULLSCREEN`, `S2D_HIGHDPI` whose
attribute on `s` is identical to `true`; the new window carries that value.
When a size does not convert, `ruby2d_show` raises before it calls anything,
so no flags value is passed at all.  Bit by bit, `expected_flags` is the OR
of the four constants, each gated by its own attribute only, so an attribute
that is not `true` contributes no bit, and when no attribute is `true` the
value is 0. -/
theorem window_flag_assembly (env : Env D) (s : VALUE) (events : List NativeEvent)
    (w : World D) :
    (∀ width height vw vh : Int, window_sizes env w s = some (width, height, vw, vh) →
      (∃ rest, (ruby2d_show env s events w).world.log =
        w.log ++ Event.S2D_CreateWindow (RSTRING_PTR env (rb_iv_get w s "@title"))
          width height FrameFn.update FrameFn.render (expected_flags env w s) :: rest) ∧
      (ruby2d_show env s events w).world.window.flags = expected_flags env w s) ∧
    (window_sizes env w s = none →
      ruby2d_show env s events w = Outcome.raise { w with self := s }) ∧
    (∀ k : Nat, (expected_flags env w s).testBit k =
      ((decide (rb_iv_get w s "@resizable" = VALUE.Qtrue) && env.S2D_RESIZABLE.testBit k) ||
       (decide (rb_iv_get w s "@borderless" = VALUE.Qtrue) && env.S2D_BORDERLESS.testBit k) ||
       (decide (rb_iv_get w s "@fullscreen" = VALUE.Qtrue) && env.S2D_FULLSCREEN.testBit k) ||
       (decide (rb_iv_get w s "@highdpi" = VALUE.Qtrue) && env.S2D_HIGHDPI.testBit k))) ∧
    (rb_iv_get w s "@resizable" ≠ VALUE.Qtrue → rb_iv_get w s "@borderless" ≠ VALUE.Qtrue →
      rb_iv_get w s "@fullscreen" ≠ VALUE.Qtrue → rb_iv_get w s "@highdpi" ≠ VALUE.Qtrue →
      expected_flags env w s = 0) := by
  refine ⟨?_, show_raises env s events w, expected_flags_testBit env w s, ?_⟩
  · intro width height vw vh h
    obtain ⟨_, a2, a3, _⟩ := show_after_entry env s events w width height vw vh h
    refine ⟨⟨[Event.window_store (WindowStore.viewport_width vw),
        Event.window_store (WindowStore.viewport_height vh),
        Event.window_store (WindowStore.on_key KeyFn.on_key),
        Event.window_store (WindowStore.on_key_down KeyFn.on_key_down),
        Event.window_store (WindowStore.on_controller ControllerFn.on_controller),
        Event.S2D_Show] ++
        emitted (show_entry env w s width height vw vh) (ruby2d_show env s events w).world,
      ?_⟩, ?_⟩
    · rw [a3]
      simp only [show_entry, List.append_assoc, List.cons_append, List.nil_append]
    · rw [a2.2.2.2.1]
      rfl
  · intro h1 h2 h3 h4
    simp [expected_flags, true_flags, List.filter, h1, h2, h3, h4]

/-- C3, instance: the demo window `obj 0` is created resizable only (its
`@highdpi` is 1, not `true`); the object `obj 14` has none of the four
attributes set to `true`, so its flags would be 0, and as it has no `@width`
its `show` raises. -/
theorem window_flag_assembly_witness :
    (window_sizes demoEnv demoWorld (VALUE.obj 0) = some (640, 480, 640, 240) ∧
      (ruby2d_show demoEnv (VALUE.obj 0) [] demoWorld).world.window.flags =
        expected_flags demoEnv demoWorld (VALUE.obj 0) ∧
      expected_flags demoEnv demoWorld (VALUE.obj 0) = 32) ∧
    (window_sizes demoEnv demoWorld (VALUE.obj 14) = none ∧
      ruby2d_show demoEnv (VALUE.obj 14) [] demoWorld =
        Outcome.raise { demoWorld with self := VALUE.obj 14 }) ∧
    ((rb_iv_get demoWorld (VALUE.obj 14) "@resizable" ≠ VALUE.Qtrue ∧
      rb_iv_get demoWorld (VALUE.obj 14) "@borderless" ≠ VALUE.Qtrue ∧
      rb_iv_get demoWorld (VALUE.obj 14) "@fullscreen" ≠ VALUE.Qtrue ∧
      rb_iv_get demoWorld (VALUE.obj 14) "@highdpi" ≠ VALUE.Qtrue) ∧
     expected_flags demoEnv demoWorld (VALUE.obj 14) = 0) :=
  ⟨⟨by decide,
    ((window_flag_assembly demoEnv (VALUE.obj 0) [] demoWorld).1 640 480 640 240
      (by decide)).2, by decide⟩,
   ⟨by decide, (window_flag_assembly demoEnv (VALUE.obj 14) [] demoWorld).2.1 (by decide)⟩,
   ⟨by decide,
    (window_flag_assembly demoEnv (VALUE.obj 14) [] demoWorld).2.2.2
      (by decide) (by decide) (by decide) (by decide)⟩⟩

/-- C4, refuted as stated.  The window `obj 6` has a `@width` of 640, a
`@height` of 480 and a `@viewport_width` of 2^31.  The specification has the
window created with 640 and 480 whatever the viewport attributes are;
`ruby2d_show` raises at the conversion of `@viewport_width` and calls
nothing, so no window is created. -/
theorem viewport_defaulting_counterexample :
    rb_iv_get demoWorld (VALUE.obj 6) "@width" = VALUE.fixnum 640 ∧
    rb_iv_get demoWorld (VALUE.obj 6) "@height" = VALUE.fixnum 480 ∧
    rb_iv_get demoWorld (VALUE.obj 6) "@viewport_width" = VALUE.fixnum 2147483648 ∧
    (ruby2d_show demoEnv (VALUE.obj 6) [] demoWorld).raised = true ∧
    (ruby2d_show demoEnv (VALUE.obj 6) [] demoWorld).world.log = [] ∧
    (ruby2d_show demoEnv (VALUE.obj 6) [] demoWorld).world.window = demoWorld.window := by
  decide

/-- C4, amended.  When `@width`, `@height` and each viewport attribute that
is not `nil` convert to an `int`, `ruby2d_show(s)` creates the window with
`@width` and `@height` and then assigns the viewport: the width is `@width`
when `@viewport_width` is `nil` and `@viewport_width` converted to `int`
otherwise, the height is `@height` when `@viewport_height` is `nil` and
`@viewport_height` otherwise, each dimension looking at its own attribute
only; all this is still so after whatever happens while the window is shown.
When one of these conversions raises, `ruby2d_show` raises before it calls
anything and no window is created. -/
theorem viewport_defaulting (env : Env D) (s : VALUE) (events : List NativeEvent)
    (w : World D) :
    (∀ width height vw vh : Int,
      window_sizes env w s = some (width, height, vw, vh) ↔
        NUM2INT env (rb_iv_get w s "@width") = some width ∧
        NUM2INT env (rb_iv_get w s "@height") = some height ∧
        (if rb_iv_get w s "@viewport_width" = VALUE.Qnil then some width
          else NUM2INT env (rb_iv_get w s "@viewport_width")) = some vw ∧
        (if rb_iv_get w s "@viewport_height" = VALUE.Qnil then some height
          else NUM2INT env (rb_iv_get w s "@viewport_height")) = some vh) ∧
    (∀ width height vw vh : Int, window_sizes env w s = some (width, height, vw, vh) →
      (ruby2d_show env s events w).world.window.viewport_width = vw ∧
      (ruby2d_show env s events w).world.window.viewport_height = vh ∧
      (ruby2d_show env s events w).world.window.width = width ∧
      (ruby2d_show env s events w).world.window.height = height ∧
      (∃ rest, (ruby2d_show env s events w).world.log =
        w.log ++ Event.S2D_CreateWindow (RSTRING_PTR env (rb_iv_get w s "@title"))
          width height FrameFn.update FrameFn.render (expected_flags env w s) ::
        Event.window_store (WindowStore.viewport_width vw) ::
        Event.window_store (WindowStore.viewport_height vh) :: rest)) ∧
    (window_sizes env w s = none →
      ruby2d_show env s events w = Outcome.raise { w with self := s }) := by
  refine ⟨window_sizes_some env w s, ?_, show_raises env s events w⟩
  intro width height vw vh h
  obtain ⟨_, a2, a3, _⟩ := show_after_entry env s events w width height vw vh h
  obtain ⟨_, b2, b3, _, b5, b6, _⟩ := a2
  refine ⟨b5.trans rfl, b6.trans rfl, b2.trans rfl, b3.trans rfl,
    ⟨[Event.window_store (WindowStore.on_key KeyFn.on_key),
      Event.window_store (WindowStore.on_key_down KeyFn.on_key_down),
      Event.window_store (WindowStore.on_controller ControllerFn.on_controller),
      Event.S2D_Show] ++
      emitted (show_entry env w s width height vw vh) (ruby2d_show env s events w).world,
    ?_⟩⟩
  rw [a3]
  simp only [show_entry, List.append_assoc, List.cons_append, List.nil_append]

/-- C4, instance: the demo window `obj 0` has no `@viewport_width` and a
`@viewport_height` of 240; the window `obj 6` has a `@viewport_width` that
is no `int`. -/
theorem viewport_defaulting_witness :
    (window_sizes demoEnv demoWorld (VALUE.obj 0) = some (640, 480, 640, 240) ∧
      (ruby2d_show demoEnv (VALUE.obj 0) [NativeEvent.render] demoWorld).world.window.viewport_width
        = 640 ∧
      (ruby2d_show demoEnv (VALUE.obj 0) [NativeEvent.render]
        demoWorld).world.window.viewport_height = 240) ∧
    (window_sizes demoEnv demoWorld (VALUE.obj 6) = none ∧
      ruby2d_show demoEnv (VALUE.obj 6) [NativeEvent.render] demoWorld =
        Outcome.raise { demoWorld with self := VALUE.obj 6 }) :=
  ⟨⟨by decide,
    ((viewport_defaulting demoEnv (VALUE.obj 0) [NativeEvent.render] demoWorld).2.1
      640 480 640 240 (by decide)).1,
    ((viewport_defaulting demoEnv (VALUE.obj 0) [NativeEvent.render] demoWorld).2.1
      640 480 640 240 (by decide)).2.1⟩,
   ⟨by decide,
    (viewport_defaulting demoEnv (VALUE.obj 6) [NativeEvent.render] demoWorld).2.2
      (by decide)⟩⟩

theorem show_entry_log (env : Env D) (w : World D) (s : VALUE) (width height vw vh : Int) :
    (show_entry env w s width height vw vh).log =
      w.log ++ emitted w (show_entry env w s width height vw vh) ∧
    (emitted w (show_entry env w s width height vw vh)).filter Event.is_callback = [] := by
  have h : (show_entry env w s width height vw vh).log = w.log ++
      [Event.S2D_CreateWindow (RSTRING_PTR env (rb_iv_get w s "@title")) width height
        FrameFn.update FrameFn.render (expected_flags env w s),
       Event.window_store (WindowStore.viewport_width vw),
       Event.window_store (WindowStore.viewport_height vh),
       Event.window_store (WindowStore.on_key KeyFn.on_key),
       Event.window_store (WindowStore.on_key_down KeyFn.on_key_down),
       Event.window_store (WindowStore.on_controller ControllerFn.on_controller),
       Event.S2D_Show] := rfl
  rw [emitted_of_log_eq w _ _ h]
  exact ⟨h, by simp [Event.is_callback]⟩

/-- C5. Callback trampolines target the shown window.  `ruby2d_show(s)`
makes `s` the receiver: `self` is `s` from then on, and once the window is
created (the four sizes convert) the key, key-down, controller, update and
render hooks of the window are the callbacks of this file and stay so
whatever happens while the window is shown.  The Ruby callbacks invoked
during the show are, in order, exactly one per native event handled:
`s.key_callback(k)` for a key `k`, `s.key_down_callback(k)` for a key press,
`s.update_callback()` for an update tick (and one `controller_callback` per
controller input); render ticks and input refreshes invoke none.  The events
handled are all events when the show returns, and it does return when the
window is created and no render tick is among the events.  On any window
that belongs to `s`, a key event, a key press and an update tick each return
after one call of the Ruby method on `s`, with the key string as the only
argument or with none. -/
theorem callbacks_target_shown_window (env : Env D) (s : VALUE)
    (events : List NativeEvent) (w : World D) :
    (ruby2d_show env s events w).world.self = s ∧
    (∀ width height vw vh : Int, window_sizes env w s = some (width, height, vw, vh) →
      hooked s (ruby2d_show env s events w).world) ∧
    (ruby2d_show env s events w).world.log =
      w.log ++ emitted w (ruby2d_show env s events w).world ∧
    (∃ handled : List NativeEvent, handled <+: events ∧
      (emitted w (ruby2d_show env s events w).world).filter Event.is_callback =
        handled.filterMap (expected_call s) ∧
      ((ruby2d_show env s events w).raised = false → handled = events)) ∧
    (∀ width height vw vh : Int, window_sizes env w s = some (width, height, vw, vh) →
      (∀ ev ∈ events, ev ≠ NativeEvent.render) →
      (ruby2d_show env s events w).raised = false ∧
      (emitted w (ruby2d_show env s events w).world).filter Event.is_callback =
        events.filterMap (expected_call s)) ∧
    (∀ (v : World D) (k : String), hooked s v →
      S2D_dispatch env (NativeEvent.key k) v = Outcome.returned
        { v with
          log := v.log ++ [Event.rb_funcall s "key_callback" [VALUE.str k]]
          heap := (env.method s "key_callback" [VALUE.str k] v.heap).2 } ∧
      S2D_dispatch env (NativeEvent.key_down k) v = Outcome.returned
        { v with
          log := v.log ++ [Event.rb_funcall s "key_down_callback" [VALUE.str k]]
          heap := (env.method s "key_down_callback" [VALUE.str k] v.heap).2 } ∧
      S2D_dispatch env NativeEvent.update v = Outcome.returned
        { v with
          log := v.log ++
            [Event.rb_iv_set s "@mouse_x" (VALUE.fixnum v.window.mouse_x),
             Event.rb_iv_set s "@mouse_y" (VALUE.fixnum v.window.mouse_y),
             Event.rb_iv_set s "@fps" (VALUE.fixnum v.window.fps),
             Event.rb_funcall s "update_callback" []]
          heap := (env.method s "update_callback" []
            { v.heap with ivars := published v }).2 }) := by
  have hsome : ∀ width height vw vh : Int,
      window_sizes env w s = some (width, height, vw, vh) →
      hooked s (ruby2d_show env s events w).world ∧
      (ruby2d_show env s events w).world.log =
        w.log ++ emitted w (ruby2d_show env s events w).world ∧
      (∃ handled : List NativeEvent, handled <+: events ∧
        (emitted w (ruby2d_show env s events w).world).filter Event.is_callback =
          handled.filterMap (expected_call s) ∧
        ((ruby2d_show env s events w).raised = false → handled = events)) ∧
      ((∀ ev ∈ events, ev ≠ NativeEvent.render) →
        (ruby2d_show env s events w).raised = false) := by
    intro width height vw vh h
    obtain ⟨a1, _, a3, ⟨handled, p1, p2, p3⟩, a5⟩ :=
      show_after_entry env s events w width height vw vh h
    obtain ⟨e1, e2⟩ := show_entry_log env w s width height vw vh
    obtain ⟨k1, k2⟩ := emitted_trans w _ _ e1 a3
    refine ⟨a1, k1, ⟨handled, p1, ?_, p3⟩, a5⟩
    rw [k2, List.filter_append, e2, p2]
    rfl
  refine ⟨?_, fun width height vw vh h => (hsome width height vw vh h).1, ?_, ?_, ?_, ?_⟩
  · cases hs : window_sizes env w s with
    | none => rw [show_raises env s events w hs]; rfl
    | some sz =>
      obtain ⟨width, height, vw, vh⟩ := sz
      exact (hsome width height vw vh hs).1.1
  · cases hs : window_sizes env w s with
    | none => rw [show_raises env s events w hs]; simp [emitted, Outcome.raise]
    | some sz =>
      obtain ⟨width, height, vw, vh⟩ := sz
      exact (hsome width height vw vh hs).2.1
  · cases hs : window_sizes env w s with
    | none =>
      rw [show_raises env s events w hs]
      exact ⟨[], List.nil_prefix, by simp [emitted, Outcome.raise],
        fun hh => by simp [Outcome.raise] at hh⟩
    | some sz =>
      obtain ⟨width, height, vw, vh⟩ := sz
      exact (hsome width height vw vh hs).2.2.1
  · intro width height vw vh h hall
    obtain ⟨_, _, ⟨handled, _, p2, p3⟩, a5⟩ := hsome width height vw vh h
    have hr := a5 hall
    refine ⟨hr, ?_⟩
    rw [p2, p3 hr]
  · intro u k hu
    obtain ⟨h1, h2, h3, _, h5, _⟩ := hu
    refine ⟨?_, ?_, ?_⟩
    · simp only [S2D_dispatch, h2, KeyFn.call, on_key_eq, h1]
    · simp only [S2D_dispatch, h3, KeyFn.call, on_key_down_eq, h1]
    · simp only [S2D_dispatch, h5, FrameFn.call, update_eq, h1]

/-- C5, instance: the demo window is shown with a key, an update tick and a
key press; then the key "a" on the window after `show`. -/
theorem callbacks_target_shown_window_witness :
    (window_sizes demoEnv demoWorld (VALUE.obj 0) = some (640, 480, 640, 240) ∧
      hooked (VALUE.obj 0) (ruby2d_show demoEnv (VALUE.obj 0) [] demoWorld).world) ∧
    ((∀ ev ∈ [NativeEvent.key "a", NativeEvent.update, NativeEvent.key_down "b"],
        ev ≠ NativeEvent.render) ∧
      (ruby2d_show demoEnv (VALUE.obj 0)
        [NativeEvent.key "a", NativeEvent.update, NativeEvent.key_down "b"]
        demoWorld).raised = false ∧
      (emitted demoWorld (ruby2d_show demoEnv (VALUE.obj 0)
        [NativeEvent.key "a", NativeEvent.update, NativeEvent.key_down "b"]
        demoWorld).world).filter Event.is_callback =
        [NativeEvent.key "a", NativeEvent.update, NativeEvent.key_down "b"].filterMap
          (expected_call (VALUE.obj 0))) ∧
    (hooked (VALUE.obj 0) (ruby2d_show demoEnv (VALUE.obj 0) [] demoWorld).world ∧
      (S2D_dispatch demoEnv (NativeEvent.key "a")
        (ruby2d_show demoEnv (VALUE.obj 0) [] demoWorld).world).world.log =
        (ruby2d_show demoEnv (VALUE.obj 0) [] demoWorld).world.log ++
          [Event.rb_funcall (VALUE.obj 0) "key_callback" [VALUE.str "a"]]) :=
  ⟨⟨by decide,
    (callbacks_target_shown_window demoEnv (VALUE.obj 0) [] demoWorld).2.1 640 480 640 240
      (by decide)⟩,
   ⟨by decide,
    (callbacks_target_shown_window demoEnv (VALUE.obj 0)
      [NativeEvent.key "a", NativeEvent.update, NativeEvent.key_down "b"]
      demoWorld).2.2.2.2.1 640 480 640 240 (by decide) (by decide)⟩,
   ⟨⟨rfl, rfl, rfl, rfl, rfl, rfl⟩,
    congrArg (fun o => o.world.log)
      ((callbacks_target_shown_window demoEnv (VALUE.obj 0) [] demoWorld).2.2.2.2.2
        (ruby2d_show demoEnv (VALUE.obj 0) [] demoWorld).world "a"
        ⟨rfl, rfl, rfl, rfl, rfl, rfl⟩).1⟩⟩

/-! ## The claims about native handles -/

end Ruby2D
